import Mathlib

/-!
Verification of the generation-orchestration pipeline of the AI-Comic-Generator
repository against its natural-language specification.

The definitions below are a shallow embedding of the source (the main App
component file).  External effects (the generative-model API, the canvas,
React state) are modelled explicitly:

* a model call's outcome is an input of type `Except String GenResponse`
  (the `String` is the JavaScript error's string form, which the source
  classifies by substring matching);
* React state touched by an operation is bundled into explicit state records
  that the embedded operation transforms;
* the repository's `types.ts` module is not present in the source tree, so
  the layout constants it exports (`TOTAL_PAGES`, `MAX_STORY_PAGES`,
  `BACK_COVER_PAGE`, `DECISION_PAGES`, ...) are treated as parameters of the
  embedded functions, exactly as the source reads them.

Set-up
-/

set_option maxRecDepth 4000

namespace InfHeroes

/-- JavaScript `String.prototype.includes`, on character lists:
`hasSubList l pat = true` iff `pat` occurs contiguously inside `l`
(the empty pattern always occurs). -/
def hasSubList (pat : List Char) : List Char → Bool
  | [] => pat.isEmpty
  | c :: t => pat.isPrefixOf (c :: t) || hasSubList pat t

/-- JavaScript `msg.includes(pat)` on strings. -/
def strIncl (s pat : String) : Bool := hasSubList pat.data s.data

theorem hasSubList_of_prefix (pat l : List Char) (h : pat.isPrefixOf l = true) :
    hasSubList pat l = true := by
  cases l with
  | nil =>
    cases pat with
    | nil => rfl
    | cons a t => simp [List.isPrefixOf] at h
  | cons c t => simp [hasSubList, h]

theorem hasSubList_append (pat a b : List Char) (h : hasSubList pat b = true) :
    hasSubList pat (a ++ b) = true := by
  induction a with
  | nil => simpa using h
  | cons c t ih =>
    simp only [List.cons_append, hasSubList]
    simp [ih]

/-- If a string decomposes around `mid`, the substring check finds `mid`. -/
theorem strIncl_of_split (s pre mid post : String) (h : s = pre ++ mid ++ post) :
    strIncl s mid = true := by
  subst h
  unfold strIncl
  rw [String.data_append, String.data_append]
  rw [List.append_assoc]
  apply hasSubList_append
  apply hasSubList_of_prefix
  exact List.isPrefixOf_iff_prefix.mpr ⟨String.data post, rfl⟩

/-- JavaScript whitespace (the characters relevant to the source's
regular expressions and `trim`). -/
def isJsSpace (c : Char) : Bool :=
  c = ' ' || c = '\t' || c = '\n' || c = '\r'

/-- ASCII word character: the `\w` class of JavaScript regular expressions. -/
def isWordChar (c : Char) : Bool :=
  (('a' ≤ c && c ≤ 'z') || ('A' ≤ c && c ≤ 'Z') || ('0' ≤ c && c ≤ '9') || c = '_')

/-- JavaScript `String.prototype.trim` (over the modelled whitespace set). -/
def jsTrim (s : String) : String :=
  ⟨((s.data.dropWhile isJsSpace).reverse.dropWhile isJsSpace).reverse⟩

/-!
Data model (from the source's use of the `types.ts` exports).
-/

/-- A character's visual identity (`Persona` in `types.ts`): image payload,
declared media type, and free-text description.  `base64 = ""` models a
missing/falsy payload (the source tests truthiness of `.base64`). -/
structure Persona where
  base64 : String
  mimeType : String
  desc : String
deriving DecidableEq

/-- One narrative unit (`Beat`).  `caption`/`dialogue` are optional in the
model responses; `scene` and `focus_char` are strings as in the source;
`choices` is the list of decision options. -/
structure Beat where
  caption : Option String := none
  dialogue : Option String := none
  scene : String
  focus_char : String
  choices : List String
deriving DecidableEq

/-- The page-type tag of a comic face. -/
inductive FaceType where
  | cover
  | story
  | back_cover
deriving DecidableEq

/-- One page of the book (`ComicFace`). -/
structure ComicFace where
  id : String
  type : FaceType
  choices : List String := []
  isLoading : Bool := true
  pageIndex : Option Nat := none
  narrative : Option Beat := none
  imageUrl : Option String := none
  resolvedChoice : Option String := none
deriving DecidableEq

/-!
Batch scheduler (`generateBatch`, source lines 795-831).

The `for` loop that fills `pagesToGen` is embedded as `pagesLoop`; the body
of the function is embedded as an event trace: first the guard additions
(`pagesToGen.forEach(p => generatingPages.current.add(p))`), then for each
scheduled page, in list order, the awaited beat commit and image commit of
`generateSinglePage`, the guard removal, and the fixed 1000 ms inter-page
delay.
-/

/-- Observable events of one `generateBatch` run. -/
inductive BatchEvent where
  | guardAdd (p : Nat)
  | beatCommitted (p : Nat)
  | imageCommitted (p : Nat)
  | guardRemove (p : Nat)
  | interPageDelay
deriving DecidableEq

/-- The `for (let i = 0; i < count; i++)` loop of `generateBatch`: starting
at page `p` with `remaining` iterations left, collect the pages that are
within the total-page bound and not in the in-flight guard set. -/
def pagesLoop (totalPages : Nat) (guard : List Nat) : Nat → Nat → List Nat
  | _, 0 => []
  | p, r + 1 =>
    if p ≤ totalPages && !(guard.contains p) then
      p :: pagesLoop totalPages guard (p + 1) r
    else
      pagesLoop totalPages guard (p + 1) r

/-- The set of newly scheduled pages of `generateBatch(startPage, count)`. -/
def pagesToGen (startPage count totalPages : Nat) (guard : List Nat) : List Nat :=
  pagesLoop totalPages guard startPage count

/-- The sequential block emitted for one scheduled page: `generateSinglePage`
commits the beat, then the image, then the page leaves the guard and the
fixed delay elapses. -/
def pageBlock (p : Nat) : List BatchEvent :=
  [BatchEvent.beatCommitted p, BatchEvent.imageCommitted p,
   BatchEvent.guardRemove p, BatchEvent.interPageDelay]

/-- The event trace of one `generateBatch(startPage, count)` call. -/
def batchTrace (startPage count totalPages : Nat) (guard : List Nat) : List BatchEvent :=
  let ps := pagesToGen startPage count totalPages guard
  ps.map BatchEvent.guardAdd ++ ps.flatMap pageBlock

theorem mem_pagesLoop (totalPages : Nat) (guard : List Nat) :
    ∀ (r p q : Nat), q ∈ pagesLoop totalPages guard p r ↔
      (p ≤ q ∧ q < p + r ∧ q ≤ totalPages ∧ q ∉ guard) := by
  intro r
  induction r with
  | zero => intro p q; simp [pagesLoop]; omega
  | succ r ih =>
    intro p q
    by_cases hc : (p ≤ totalPages && !(guard.contains p)) = true
    · have hp : p ≤ totalPages ∧ p ∉ guard := by simpa using hc
      constructor
      · intro hq
        rw [pagesLoop, if_pos hc] at hq
        rcases List.mem_cons.mp hq with rfl | hq
        · exact ⟨le_refl _, by omega, hp.1, hp.2⟩
        · have := (ih (p + 1) q).mp hq
          exact ⟨by omega, by omega, this.2.2⟩
      · intro ⟨h1, h2, h3, h4⟩
        rw [pagesLoop, if_pos hc]
        rcases Nat.eq_or_lt_of_le h1 with rfl | hlt
        · exact List.mem_cons_self _ _
        · exact List.mem_cons_of_mem _ ((ih (p + 1) q).mpr ⟨hlt, by omega, h3, h4⟩)
    · have hp : ¬(p ≤ totalPages ∧ p ∉ guard) := by
        intro hcon
        exact hc (by simp [hcon.1, hcon.2])
      constructor
      · intro hq
        rw [pagesLoop, if_neg hc] at hq
        have := (ih (p + 1) q).mp hq
        exact ⟨by omega, by omega, this.2.2⟩
      · intro ⟨h1, h2, h3, h4⟩
        rw [pagesLoop, if_neg hc]
        rcases Nat.eq_or_lt_of_le h1 with rfl | hlt
        · exact absurd ⟨h3, h4⟩ hp
        · exact (ih (p + 1) q).mpr ⟨hlt, by omega, h3, h4⟩

theorem pagesLoop_pairwise_lt (totalPages : Nat) (guard : List Nat) :
    ∀ (r p : Nat), (pagesLoop totalPages guard p r).Pairwise (· < ·) := by
  intro r
  induction r with
  | zero => intro p; simp [pagesLoop]
  | succ r ih =>
    intro p
    by_cases hc : (p ≤ totalPages && !(guard.contains p)) = true
    · rw [pagesLoop, if_pos hc]
      refine List.pairwise_cons.mpr ⟨?_, ih (p + 1)⟩
      intro q hq
      have := (mem_pagesLoop totalPages guard r (p + 1) q).mp hq
      omega
    · rw [pagesLoop, if_neg hc]
      exact ih (p + 1)

theorem beat_mem_flatMap_pageBlock (p : Nat) (l : List Nat) (h : p ∈ l) :
    BatchEvent.beatCommitted p ∈ l.flatMap pageBlock := by
  exact List.mem_flatMap.mpr ⟨p, h, by simp [pageBlock]⟩

theorem pairwise_block_order (l : List Nat) :
    l.Pairwise (fun p q =>
      [BatchEvent.imageCommitted p, BatchEvent.interPageDelay,
       BatchEvent.beatCommitted q].Sublist (l.flatMap pageBlock)) := by
  induction l with
  | nil => simp
  | cons a t ih =>
    refine List.pairwise_cons.mpr ⟨?_, ?_⟩
    · intro q hq
      rw [List.flatMap_cons]
      have h1 : [BatchEvent.imageCommitted a, BatchEvent.interPageDelay].Sublist
          (pageBlock a) := by
        simp [pageBlock]
      have h2 : [BatchEvent.beatCommitted q].Sublist (t.flatMap pageBlock) :=
        List.singleton_sublist.mpr (beat_mem_flatMap_pageBlock q t hq)
      exact List.Sublist.append h1 h2
    · refine ih.imp ?_
      intro p q hsub
      rw [List.flatMap_cons]
      exact hsub.trans (List.sublist_append_right _ _)

theorem beat_image_sublist_flatMap (p : Nat) (l : List Nat) (h : p ∈ l) :
    [BatchEvent.beatCommitted p, BatchEvent.imageCommitted p].Sublist
      (l.flatMap pageBlock) := by
  induction l with
  | nil => cases h
  | cons a t ih =>
    rw [List.flatMap_cons]
    rcases List.mem_cons.mp h with rfl | h
    · exact List.Sublist.trans (by simp [pageBlock]) (List.sublist_append_left _ _)
    · exact (ih h).trans (List.sublist_append_right _ _)

/-- C6: for every call `generateBatch(startPage, count)`, the newly scheduled
pages are exactly the `p` with `startPage ≤ p < startPage + count`,
`p ≤ TOTAL_PAGES` and `p` not in the in-flight guard set; the scheduled list
is strictly ascending; every scheduled page is added to the guard before any
beat is committed; each page's beat is committed before its image; and for
any two scheduled pages in order, the earlier page's image commit and the
inter-page delay precede the later page's beat commit. -/
theorem generateBatch_scheduling (startPage count totalPages : Nat) (guard : List Nat) :
    (∀ p, p ∈ pagesToGen startPage count totalPages guard ↔
      (startPage ≤ p ∧ p < startPage + count ∧ p ≤ totalPages ∧ p ∉ guard)) ∧
    (pagesToGen startPage count totalPages guard).Pairwise (· < ·) ∧
    (∀ p ∈ pagesToGen startPage count totalPages guard,
      [BatchEvent.guardAdd p, BatchEvent.beatCommitted p].Sublist
        (batchTrace startPage count totalPages guard)) ∧
    (∀ p ∈ pagesToGen startPage count totalPages guard,
      [BatchEvent.beatCommitted p, BatchEvent.imageCommitted p].Sublist
        (batchTrace startPage count totalPages guard)) ∧
    (pagesToGen startPage count totalPages guard).Pairwise (fun p q =>
      [BatchEvent.imageCommitted p, BatchEvent.interPageDelay,
       BatchEvent.beatCommitted q].Sublist
        (batchTrace startPage count totalPages guard)) := by
  refine ⟨fun p => mem_pagesLoop totalPages guard count startPage p,
    pagesLoop_pairwise_lt totalPages guard count startPage, ?_, ?_, ?_⟩
  · intro p hp
    have h1 : [BatchEvent.guardAdd p].Sublist
        ((pagesToGen startPage count totalPages guard).map BatchEvent.guardAdd) :=
      List.singleton_sublist.mpr (List.mem_map_of_mem _ hp)
    have h2 : [BatchEvent.beatCommitted p].Sublist
        ((pagesToGen startPage count totalPages guard).flatMap pageBlock) :=
      List.singleton_sublist.mpr (beat_mem_flatMap_pageBlock p _ hp)
    exact List.Sublist.append h1 h2
  · intro p hp
    exact (beat_image_sublist_flatMap p _ hp).trans (List.sublist_append_right _ _)
  · refine (pairwise_block_order (pagesToGen startPage count totalPages guard)).imp ?_
    intro p q hsub
    exact hsub.trans (List.sublist_append_right _ _)

/-- Witness for C6, at the specification's scenario: a batch of 3 starting at
page 4 with page 5 already in flight schedules exactly pages 4 and 6. -/
theorem generateBatch_scheduling_witness :
    (4 ∈ pagesToGen 4 3 10 [5] ∧ 5 ∉ pagesToGen 4 3 10 [5] ∧
       6 ∈ pagesToGen 4 3 10 [5]) ∧
    [BatchEvent.guardAdd 6, BatchEvent.beatCommitted 6].Sublist (batchTrace 4 3 10 [5]) ∧
    [BatchEvent.beatCommitted 4, BatchEvent.imageCommitted 4].Sublist (batchTrace 4 3 10 [5]) := by
  obtain ⟨hmem, _, hguard, hbeat, _⟩ := generateBatch_scheduling 4 3 10 [5]
  refine ⟨⟨(hmem 4).mpr (by decide), ?_, (hmem 6).mpr (by decide)⟩, ?_, ?_⟩
  · intro h
    exact absurd ((hmem 5).mp h) (by decide)
  · exact hguard 6 ((hmem 6).mpr (by decide))
  · exact hbeat 4 ((hmem 4).mpr (by decide))

/-!
Narrative context of `generateBeat` (source lines 360-370).

The source computes
`history.filter(p => p.type === 'story' && p.narrative && (p.pageIndex || 0) < pageNum)
        .sort((a, b) => (a.pageIndex || 0) - (b.pageIndex || 0))`;
`filter` copies the array and `sort` (stable since ES2019) acts on the copy,
so the `history` argument is untouched.  The stable sort is embedded as
`List.mergeSort`.
-/

/-- `(p.pageIndex || 0)`: the sort/filter key of a comic face. -/
def historyKey (f : ComicFace) : Nat := f.pageIndex.getD 0

/-- The filtered, sorted history that `generateBeat` turns into the prompt's
narrative context. -/
def relevantHistory (history : List ComicFace) (pageNum : Nat) : List ComicFace :=
  (history.filter (fun p =>
      decide (p.type = FaceType.story) && p.narrative.isSome &&
        decide (historyKey p < pageNum))).mergeSort
    (fun a b => decide (historyKey a ≤ historyKey b))

/-- C10: the narrative context of `generateBeat(history, _, pageNum, _)`
contains exactly the history entries of type `story` that already carry a
committed beat and whose page index is strictly below `pageNum`, ordered by
ascending page index; in particular no entry with index `≥ pageNum` is ever
read. -/
theorem generateBeat_context (history : List ComicFace) (pageNum : Nat) :
    (∀ f, f ∈ relevantHistory history pageNum ↔
      (f ∈ history ∧ f.type = FaceType.story ∧ f.narrative.isSome ∧
        historyKey f < pageNum)) ∧
    (relevantHistory history pageNum).Pairwise
      (fun a b => historyKey a ≤ historyKey b) ∧
    (∀ f ∈ relevantHistory history pageNum, historyKey f < pageNum) := by
  have hmem : ∀ f, f ∈ relevantHistory history pageNum ↔
      (f ∈ history ∧ f.type = FaceType.story ∧ f.narrative.isSome ∧
        historyKey f < pageNum) := by
    intro f
    unfold relevantHistory
    rw [List.mem_mergeSort, List.mem_filter]
    simp [and_assoc]
  refine ⟨hmem, ?_, ?_⟩
  · have hs := @List.sorted_mergeSort ComicFace
      (fun a b : ComicFace => decide (historyKey a ≤ historyKey b))
      (fun a b c hab hbc => by
        simp only [decide_eq_true_eq] at hab hbc ⊢; omega)
      (fun a b => by
        simp only [Bool.or_eq_true, decide_eq_true_eq]; omega)
      (history.filter (fun p =>
        decide (p.type = FaceType.story) && p.narrative.isSome &&
          decide (historyKey p < pageNum)))
    exact hs.imp (fun h => by simpa using h)
  · intro f hf
    exact ((hmem f).mp hf).2.2.2

/-- Witness for C10: a four-page out-of-order history at `pageNum = 3` keeps
exactly the committed story pages 1 and 2, sorted ascending. -/
theorem generateBeat_context_witness :
    (⟨"page-1", FaceType.story, [], false, some 1,
        some ⟨none, none, "s1", "hero", []⟩, none, none⟩ : ComicFace) ∈
      relevantHistory
        [⟨"page-5", FaceType.story, [], false, some 5,
            some ⟨none, none, "s5", "hero", []⟩, none, none⟩,
         ⟨"page-2", FaceType.story, [], true, some 2, none, none, none⟩,
         ⟨"cover", FaceType.cover, [], false, some 0,
            some ⟨none, none, "c", "other", []⟩, none, none⟩,
         ⟨"page-1", FaceType.story, [], false, some 1,
            some ⟨none, none, "s1", "hero", []⟩, none, none⟩] 3 ∧
    (⟨"page-5", FaceType.story, [], false, some 5,
        some ⟨none, none, "s5", "hero", []⟩, none, none⟩ : ComicFace) ∉
      relevantHistory
        [⟨"page-5", FaceType.story, [], false, some 5,
            some ⟨none, none, "s5", "hero", []⟩, none, none⟩,
         ⟨"page-2", FaceType.story, [], true, some 2, none, none, none⟩,
         ⟨"cover", FaceType.cover, [], false, some 0,
            some ⟨none, none, "c", "other", []⟩, none, none⟩,
         ⟨"page-1", FaceType.story, [], false, some 1,
            some ⟨none, none, "s1", "hero", []⟩, none, none⟩] 3 := by
  obtain ⟨hmem, _, _⟩ := generateBeat_context
    [⟨"page-5", FaceType.story, [], false, some 5,
        some ⟨none, none, "s5", "hero", []⟩, none, none⟩,
     ⟨"page-2", FaceType.story, [], true, some 2, none, none, none⟩,
     ⟨"cover", FaceType.cover, [], false, some 0,
        some ⟨none, none, "c", "other", []⟩, none, none⟩,
     ⟨"page-1", FaceType.story, [], false, some 1,
        some ⟨none, none, "s1", "hero", []⟩, none, none⟩] 3
  constructor
  · exact (hmem _).mpr (by refine ⟨by decide, by decide, by decide, by decide⟩)
  · intro h
    exact absurd ((hmem _).mp h).2.2.2 (by decide)

/-!
Issue rollover (`handleNextIssue`, source lines 897-915, and
`generateSummary`, lines 329-351).

`generateSummary`'s model call is abstracted as an input
`env : Except String (Option String)`: `.error e` is a raised/timed-out call,
`.ok t` a response whose `res.text` is `t` (`none` models an absent text
field, which the source's `res.text || "To be continued..."` treats like the
empty string).
-/

/-- JavaScript template interpolation of a possibly-undefined number. -/
def optNatText : Option Nat → String
  | some n => toString n
  | none => "undefined"

/-- JavaScript `Array.prototype.join(sep)`. -/
def jsJoin (sep : String) : List String → String
  | [] => ""
  | [x] => x
  | x :: y :: xs => x ++ sep ++ jsJoin sep (y :: xs)

/-- One line of the summary text:
`[Page ${h.pageIndex}] ${caption || ''} ${dialogue || ''} (Scene: ${scene})`. -/
def summaryLine (h : ComicFace) : String :=
  "[Page " ++ optNatText h.pageIndex ++ "] " ++
    ((h.narrative.bind (·.caption)).getD "") ++ " " ++
    ((h.narrative.bind (·.dialogue)).getD "") ++ " (Scene: " ++
    (match h.narrative with
     | some b => b.scene
     | none => "undefined") ++ ")"

/-- The text fed to the summarization call. -/
def summaryText (history : List ComicFace) : String :=
  jsJoin " " ((history.filter (fun h => h.narrative.isSome)).map summaryLine)

/-- `generateSummary`: empty history text short-circuits to
"The story begins."; a failed call yields "The story continues..."; an
empty/absent response text yields "To be continued...". -/
def generateSummary (history : List ComicFace)
    (env : Except String (Option String)) : String :=
  if summaryText history = "" then "The story begins."
  else
    match env with
    | .error _ => "The story continues..."
    | .ok (some s) => if s = "" then "To be continued..." else s
    | .ok none => "To be continued..."

/-- Session state read and reset by `handleNextIssue`. -/
structure Session where
  issueNumber : Nat
  isFinale : Bool
  previousSummary : String
  comicFaces : List ComicFace
  currentSheetIndex : Nat
  history : List ComicFace
  generatingPages : List Nat
deriving DecidableEq

/-- `handleNextIssue(finale)` up to the end of its hard reset (step 4 of the
rollover sequence), i.e. the state immediately before `startIssueGeneration`
relaunches. -/
def handleNextIssueReset (s : Session) (finale : Bool)
    (env : Except String (Option String)) : Session :=
  { issueNumber := s.issueNumber + 1
    isFinale := finale
    previousSummary := s.previousSummary ++ "\n[Issue " ++
      toString s.issueNumber ++ " Summary]: " ++ generateSummary s.history env
    comicFaces := []
    currentSheetIndex := 0
    history := []
    generatingPages := [] }

theorem generateSummary_ne_empty (history : List ComicFace)
    (env : Except String (Option String)) : generateSummary history env ≠ "" := by
  unfold generateSummary
  by_cases ht : summaryText history = ""
  · rw [if_pos ht]; decide
  · rw [if_neg ht]
    rcases env with e | t
    · show "The story continues..." ≠ ""
      decide
    · rcases t with _ | s
      · show "To be continued..." ≠ ""
        decide
      · show (if s = "" then "To be continued..." else s) ≠ ""
        by_cases hs : s = ""
        · rw [if_pos hs]; decide
        · rw [if_neg hs]; exact hs

/-- C7: `handleNextIssue(finale)` appends a non-empty recap to the carried
cross-issue summary (preserving, not replacing, the old text), increments the
issue counter by exactly 1, sets the finale flag to its argument, and leaves
the page collection, the history snapshot and the in-flight guard all empty
immediately after the reset; a failed summarization call yields the generic
"The story continues..." stub instead of failing. -/
theorem handleNextIssue_rollover (s : Session) (finale : Bool)
    (env : Except String (Option String)) :
    (∃ recap, recap ≠ "" ∧
      (handleNextIssueReset s finale env).previousSummary =
        s.previousSummary ++
          ("\n[Issue " ++ toString s.issueNumber ++ " Summary]: " ++ recap)) ∧
    (handleNextIssueReset s finale env).issueNumber = s.issueNumber + 1 ∧
    (handleNextIssueReset s finale env).isFinale = finale ∧
    (handleNextIssueReset s finale env).comicFaces = [] ∧
    (handleNextIssueReset s finale env).history = [] ∧
    (handleNextIssueReset s finale env).generatingPages = [] ∧
    (∀ e, env = Except.error e → summaryText s.history ≠ "" →
      generateSummary s.history env = "The story continues...") := by
  refine ⟨⟨generateSummary s.history env, generateSummary_ne_empty s.history env, ?_⟩,
    rfl, rfl, rfl, rfl, rfl, ?_⟩
  · show s.previousSummary ++ "\n[Issue " ++ toString s.issueNumber ++
        " Summary]: " ++ generateSummary s.history env = _
    simp [String.append_assoc]
  · intro e he ht
    subst he
    unfold generateSummary
    rw [if_neg ht]

/-- Witness for C7, at the specification's scenario: rollover after issue 1
with a 3-page history and a failing summarization call yields issue number 2,
empty page collection/history/guard and the non-empty stub recap. -/
theorem handleNextIssue_rollover_witness :
    (handleNextIssueReset
        ⟨1, false, "", [⟨"cover", FaceType.cover, [], false, some 0, none, none, none⟩],
          3,
          [⟨"page-1", FaceType.story, [], false, some 1,
              some ⟨some "c1", none, "s1", "hero", []⟩, some "u1", none⟩,
           ⟨"page-2", FaceType.story, [], false, some 2,
              some ⟨some "c2", none, "s2", "friend", []⟩, some "u2", none⟩,
           ⟨"page-3", FaceType.story, [], false, some 3,
              some ⟨some "c3", none, "s3", "hero", []⟩, some "u3", none⟩],
          [7]⟩
        false (Except.error "Timeout after 20000ms")).issueNumber = 2 ∧
    (handleNextIssueReset
        ⟨1, false, "", [⟨"cover", FaceType.cover, [], false, some 0, none, none, none⟩],
          3,
          [⟨"page-1", FaceType.story, [], false, some 1,
              some ⟨some "c1", none, "s1", "hero", []⟩, some "u1", none⟩,
           ⟨"page-2", FaceType.story, [], false, some 2,
              some ⟨some "c2", none, "s2", "friend", []⟩, some "u2", none⟩,
           ⟨"page-3", FaceType.story, [], false, some 3,
              some ⟨some "c3", none, "s3", "hero", []⟩, some "u3", none⟩],
          [7]⟩
        false (Except.error "Timeout after 20000ms")).comicFaces = [] ∧
    (handleNextIssueReset
        ⟨1, false, "", [⟨"cover", FaceType.cover, [], false, some 0, none, none, none⟩],
          3,
          [⟨"page-1", FaceType.story, [], false, some 1,
              some ⟨some "c1", none, "s1", "hero", []⟩, some "u1", none⟩,
           ⟨"page-2", FaceType.story, [], false, some 2,
              some ⟨some "c2", none, "s2", "friend", []⟩, some "u2", none⟩,
           ⟨"page-3", FaceType.story, [], false, some 3,
              some ⟨some "c3", none, "s3", "hero", []⟩, some "u3", none⟩],
          [7]⟩
        false (Except.error "Timeout after 20000ms")).generatingPages = [] ∧
    generateSummary
        [⟨"page-1", FaceType.story, [], false, some 1,
            some ⟨some "c1", none, "s1", "hero", []⟩, some "u1", none⟩,
         ⟨"page-2", FaceType.story, [], false, some 2,
            some ⟨some "c2", none, "s2", "friend", []⟩, some "u2", none⟩,
         ⟨"page-3", FaceType.story, [], false, some 3,
            some ⟨some "c3", none, "s3", "hero", []⟩, some "u3", none⟩]
        (Except.error "Timeout after 20000ms") = "The story continues..." := by
  obtain ⟨_, h2, _, h4, _, h6, h7⟩ := handleNextIssue_rollover
    ⟨1, false, "", [⟨"cover", FaceType.cover, [], false, some 0, none, none, none⟩],
      3,
      [⟨"page-1", FaceType.story, [], false, some 1,
          some ⟨some "c1", none, "s1", "hero", []⟩, some "u1", none⟩,
       ⟨"page-2", FaceType.story, [], false, some 2,
          some ⟨some "c2", none, "s2", "friend", []⟩, some "u2", none⟩,
       ⟨"page-3", FaceType.story, [], false, some 3,
          some ⟨some "c3", none, "s3", "hero", []⟩, some "u3", none⟩],
      [7]⟩
    false (Except.error "Timeout after 20000ms")
  exact ⟨h2, h4, h6, h7 "Timeout after 20000ms" rfl (by decide)⟩

/-!
Launch preconditions (`launchStory`, source lines 868-895).

`validateApiKey()` is an external hook, abstracted as the boolean `hasKey`;
the random tone draw is abstracted as `pickTone`.  The returned flag records
whether `startIssueGeneration(false)` was invoked — page creation and every
model call of a launch happen only inside `startIssueGeneration`.
-/

/-- Session state read/written by `launchStory`. -/
structure LaunchState where
  issueNumber : Nat
  isFinale : Bool
  previousSummary : String
  comicFaces : List ComicFace
  storyTone : String
deriving DecidableEq

/-- `launchStory` up to the invocation of `startIssueGeneration(false)`:
the guards (`validateApiKey`, missing hero, Custom genre with blank premise)
return with the state untouched; otherwise the tone is set, the issue
tracking reset, and the launch sequence started. -/
def launchStory (hasKey : Bool) (hero : Option Persona)
    (selectedGenre customPremise pickTone : String)
    (s : LaunchState) : LaunchState × Bool :=
  if !hasKey then (s, false)
  else if hero.isNone then (s, false)
  else if selectedGenre = "Custom" && jsTrim customPremise = "" then (s, false)
  else
    ({ issueNumber := 1
       isFinale := false
       previousSummary := ""
       comicFaces := s.comicFaces
       storyTone := pickTone }, true)

/-- C9: with no hero persona, or with genre "Custom" and a blank (empty or
whitespace-only) premise, `launchStory` returns before any generation: the
launch sequence is not started and the whole state — issue counter, finale
flag, carried summary, page collection — is unchanged. -/
theorem launchStory_precondition (hasKey : Bool) (hero : Option Persona)
    (selectedGenre customPremise pickTone : String) (s : LaunchState)
    (h : hero = none ∨ (selectedGenre = "Custom" ∧ jsTrim customPremise = "")) :
    launchStory hasKey hero selectedGenre customPremise pickTone s = (s, false) := by
  unfold launchStory
  cases hasKey with
  | false => rfl
  | true =>
    rw [if_neg (by simp)]
    rcases h with rfl | ⟨hg, hp⟩
    · rfl
    · cases hero with
      | none => rfl
      | some p =>
        rw [if_neg (by simp)]
        rw [if_pos (by simp [hg, hp])]

/-- Witness for C9, at the specification's scenario: a hero is uploaded but
the genre is "Custom" with a whitespace-only premise; the launch is rejected
with the state unchanged. -/
theorem launchStory_precondition_witness :
    launchStory true (some ⟨"b64", "image/jpeg", "The Main Hero"⟩)
        "Custom" "   " "GRITTY" ⟨1, false, "", [], "EPIC"⟩ =
      (⟨1, false, "", [], "EPIC"⟩, false) :=
  launchStory_precondition true (some ⟨"b64", "image/jpeg", "The Main Hero"⟩)
    "Custom" "   " "GRITTY" ⟨1, false, "", [], "EPIC"⟩
    (Or.inr ⟨rfl, by decide⟩)

/-!
Beat generation (`generateBeat`, source lines 353-511).

The model call plus `JSON.parse` of the cleaned response text is abstracted
as an input `env : Except String ParsedBeat`: `.error e` is any raised
failure (network error, timeout, unparsable JSON — the source's single
`catch`), `.ok p` a successfully parsed object whose fields may each be
absent (`none` also models a non-string value where the source checks
`typeof`).  The repair pipeline (source lines 482-491) is embedded verbatim.
-/

/-- The character class `[\w\s\-]` of the speaker-label regex. -/
def isLabelChar (c : Char) : Bool := isWordChar c || isJsSpace c || c = '-'

/-- `replace(/^[\w\s\-]+:\s*/i, '')` on a character list.  The greedy run of
label characters never contains ':', so the regex matches exactly when the
first character past the run is ':'. -/
def stripSpeakerLabelL (l : List Char) : List Char :=
  let run := l.takeWhile isLabelChar
  if run.isEmpty then l
  else
    match l.drop run.length with
    | ':' :: t => t.dropWhile isJsSpace
    | _ => l

/-- `replace(/^[\w\s\-]+:\s*/i, '')` on a string. -/
def stripSpeakerLabel (s : String) : String := ⟨stripSpeakerLabelL s.data⟩

/-- `replace(/["']/g, '')`. -/
def stripQuotes (s : String) : String :=
  ⟨s.data.filter (fun c => !(c = '"' || c = '\''))⟩

/-- The parsed JSON object of a beat response; every field may be absent. -/
structure ParsedBeat where
  caption : Option String := none
  dialogue : Option String := none
  scene : Option String := none
  focus_char : Option String := none
  choices : Option (List String) := none
deriving DecidableEq

/-- The synthesized default scene (source lines 489-491). -/
def defaultSceneText (genre : String) : String :=
  "A dramatic scene in the style of " ++ genre ++
    ". The characters react to the situation."

/-- The defensive repair of a parsed beat (source lines 482-491).  A
`choices` field left `undefined` by the source (decision final page with no
model-supplied choices) is modelled as `[]`. -/
def repairBeat (p : ParsedBeat) (isDecisionPage : Bool)
    (pageNum maxStoryPages : Nat) (genre : String) : Beat :=
  let isFinalPage := pageNum = maxStoryPages
  let dialogue := match p.dialogue with
    | some d =>
      if d = "" then some d else some (jsTrim (stripQuotes (stripSpeakerLabel d)))
    | none => none
  let caption := match p.caption with
    | some c => if c = "" then some c else some (jsTrim (stripSpeakerLabel c))
    | none => none
  let choices1 := if !isDecisionPage then some ([] : List String) else p.choices
  let choices2 :=
    if isDecisionPage && !(decide isFinalPage) &&
        (choices1.isNone || decide ((choices1.getD []).length < 2)) then
      some ["Option A", "Option B"]
    else choices1
  let focus := match p.focus_char with
    | some f => if f = "hero" || f = "friend" || f = "other" then f else "hero"
    | none => "hero"
  let scene := match p.scene with
    | some sc => if sc = "" then defaultSceneText genre else sc
    | none => defaultSceneText genre
  { caption := caption, dialogue := dialogue, scene := scene,
    focus_char := focus, choices := choices2.getD [] }

/-- The context-specific fallback beat returned from the `catch` of
`generateBeat` (source lines 504-509). -/
def defaultBeat (pageNum : Nat) : Beat :=
  { caption := some (if pageNum = 1 then "It began..." else "...")
    dialogue := none
    scene := "Generic scene for page " ++ toString pageNum ++ "."
    focus_char := "hero"
    choices := [] }

/-- The auth/permission error test shared by `generateBeat`,
`generatePersona` and `generateImage` (`'API_KEY'`, `'403'`,
`'Permission denied'`). -/
def isAuthMessage (msg : String) : Bool :=
  strIncl msg "API_KEY" || strIncl msg "403" || strIncl msg "Permission denied"

/-- `generateBeat` after the model call: repair on success, default beat on
any failure.  The boolean records whether `handleAPIError` (the
credential-re-entry escalation) was invoked, which happens exactly for
auth-classified failures. -/
def generateBeatRun (env : Except String ParsedBeat) (isDecisionPage : Bool)
    (pageNum maxStoryPages : Nat) (genre : String) : Beat × Bool :=
  match env with
  | Except.ok p => (repairBeat p isDecisionPage pageNum maxStoryPages genre, false)
  | Except.error e => (defaultBeat pageNum, isAuthMessage e)

theorem str_eq_empty_iff (s : String) : s = "" ↔ s.data = [] := by
  constructor
  · intro h; subst h; rfl
  · intro h
    apply String.ext
    rw [h]

theorem append3_ne_empty (A g B : String) (hA : A.data ≠ []) :
    A ++ g ++ B ≠ "" := by
  intro he
  rw [str_eq_empty_iff] at he
  rw [String.data_append, String.data_append] at he
  rcases List.append_eq_nil.mp he with ⟨h1, _⟩
  rcases List.append_eq_nil.mp h1 with ⟨h2, _⟩
  exact hA h2

theorem defaultSceneText_ne_empty (genre : String) : defaultSceneText genre ≠ "" :=
  append3_ne_empty _ genre _ (by decide)

theorem defaultBeat_scene_ne_empty (pageNum : Nat) :
    (defaultBeat pageNum).scene ≠ "" :=
  append3_ne_empty _ (toString pageNum) _ (by decide)

theorem repairBeat_scene_ne_empty (p : ParsedBeat) (dec : Bool)
    (pageNum maxStoryPages : Nat) (genre : String) :
    (repairBeat p dec pageNum maxStoryPages genre).scene ≠ "" := by
  show (match p.scene with
    | some sc => if sc = "" then defaultSceneText genre else sc
    | none => defaultSceneText genre) ≠ ""
  rcases p.scene with _ | sc
  · exact defaultSceneText_ne_empty genre
  · show (if sc = "" then defaultSceneText genre else sc) ≠ ""
    by_cases hs : sc = ""
    · rw [if_pos hs]; exact defaultSceneText_ne_empty genre
    · rw [if_neg hs]; exact hs

theorem generateBeatRun_scene_ne_empty (env : Except String ParsedBeat)
    (dec : Bool) (pageNum maxStoryPages : Nat) (genre : String) :
    (generateBeatRun env dec pageNum maxStoryPages genre).1.scene ≠ "" := by
  rcases env with e | p
  · exact defaultBeat_scene_ne_empty pageNum
  · exact repairBeat_scene_ne_empty p dec pageNum maxStoryPages genre

theorem repairBeat_focus_eq (p : ParsedBeat) (dec : Bool)
    (pageNum maxStoryPages : Nat) (genre : String) :
    (repairBeat p dec pageNum maxStoryPages genre).focus_char =
      (match p.focus_char with
       | some f => if f = "hero" || f = "friend" || f = "other" then f else "hero"
       | none => "hero") := rfl

theorem repairBeat_choices_eq (p : ParsedBeat) (dec : Bool)
    (pageNum maxStoryPages : Nat) (genre : String) :
    (repairBeat p dec pageNum maxStoryPages genre).choices =
      ((if dec && !(decide (pageNum = maxStoryPages)) &&
          ((if !dec then some ([] : List String) else p.choices).isNone ||
            decide (((if !dec then some ([] : List String) else p.choices).getD
              []).length < 2)) then
        some ["Option A", "Option B"]
      else (if !dec then some ([] : List String) else p.choices)).getD []) := rfl

theorem repairBeat_focus_enum (p : ParsedBeat) (dec : Bool)
    (pageNum maxStoryPages : Nat) (genre : String) :
    (repairBeat p dec pageNum maxStoryPages genre).focus_char = "hero" ∨
    (repairBeat p dec pageNum maxStoryPages genre).focus_char = "friend" ∨
    (repairBeat p dec pageNum maxStoryPages genre).focus_char = "other" := by
  rw [repairBeat_focus_eq]
  rcases hpf : p.focus_char with _ | f
  · exact Or.inl rfl
  · simp only []
    by_cases hf : (f = "hero" || f = "friend" || f = "other") = true
    · rw [if_pos hf]
      simp only [Bool.or_eq_true, decide_eq_true_eq] at hf
      tauto
    · rw [if_neg hf]
      exact Or.inl rfl

theorem repairBeat_focus_default (p : ParsedBeat) (dec : Bool)
    (pageNum maxStoryPages : Nat) (genre : String) (f : String)
    (hf : p.focus_char = some f)
    (h : ¬(f = "hero" ∨ f = "friend" ∨ f = "other")) :
    (repairBeat p dec pageNum maxStoryPages genre).focus_char = "hero" := by
  rw [repairBeat_focus_eq, hf]
  simp only []
  rw [if_neg (by simp only [Bool.or_eq_true, decide_eq_true_eq]; tauto)]

theorem repairBeat_choices_nondecision (p : ParsedBeat)
    (pageNum maxStoryPages : Nat) (genre : String) :
    (repairBeat p false pageNum maxStoryPages genre).choices = [] := rfl

theorem repairBeat_choices_decision (p : ParsedBeat)
    (pageNum maxStoryPages : Nat) (genre : String) (h : pageNum ≠ maxStoryPages) :
    2 ≤ (repairBeat p true pageNum maxStoryPages genre).choices.length ∧
    ((p.choices = none ∨ (p.choices.getD []).length < 2) →
      (repairBeat p true pageNum maxStoryPages genre).choices =
        ["Option A", "Option B"]) := by
  have hd : decide (pageNum = maxStoryPages) = false := decide_eq_false h
  rw [repairBeat_choices_eq, hd]
  rcases hpc : p.choices with _ | l
  · simp
  · by_cases hl : l.length < 2
    · constructor
      · simp [hl]
      · intro _
        simp [hl]
    · constructor
      · simp [hl]
        omega
      · intro hcon
        rcases hcon with hnone | hlen
        · cases hnone
        · simp at hlen
          omega

/-- C4 (amended): `generateBeat` (given the hero precondition) is total —
any model/parse failure yields the context default beat and only
auth-classified failures invoke the error escalation — and its Beat is
well-formed: non-empty `scene`; `focus_char` in {hero, friend, other},
defaulting to `hero` when the model supplies anything else; `choices` empty
whenever the decision flag is false; and when the decision flag is true, the
response parses, and the page is not the final story page
(`pageNum ≠ MAX_STORY_PAGES`), at least two choices, with the two defaults
backfilled if the model supplied fewer.  (On the final story page the
backfill is skipped — the one deviation from the claim as stated.) -/
theorem generateBeat_output_contract (env : Except String ParsedBeat)
    (dec : Bool) (pageNum maxStoryPages : Nat) (genre : String) :
    (generateBeatRun env dec pageNum maxStoryPages genre).1.scene ≠ "" ∧
    ((generateBeatRun env dec pageNum maxStoryPages genre).1.focus_char = "hero" ∨
     (generateBeatRun env dec pageNum maxStoryPages genre).1.focus_char = "friend" ∨
     (generateBeatRun env dec pageNum maxStoryPages genre).1.focus_char = "other") ∧
    (∀ p f, env = Except.ok p → p.focus_char = some f →
      ¬(f = "hero" ∨ f = "friend" ∨ f = "other") →
      (generateBeatRun env dec pageNum maxStoryPages genre).1.focus_char = "hero") ∧
    (dec = false → (generateBeatRun env dec pageNum maxStoryPages genre).1.choices = []) ∧
    (dec = true → pageNum ≠ maxStoryPages → ∀ p, env = Except.ok p →
      2 ≤ (generateBeatRun env dec pageNum maxStoryPages genre).1.choices.length ∧
      ((p.choices = none ∨ (p.choices.getD []).length < 2) →
        (generateBeatRun env dec pageNum maxStoryPages genre).1.choices =
          ["Option A", "Option B"])) ∧
    (∀ e, env = Except.error e →
      (generateBeatRun env dec pageNum maxStoryPages genre).1 = defaultBeat pageNum ∧
      (generateBeatRun env dec pageNum maxStoryPages genre).2 = isAuthMessage e) := by
  refine ⟨generateBeatRun_scene_ne_empty env dec pageNum maxStoryPages genre,
    ?_, ?_, ?_, ?_, ?_⟩
  · rcases env with e | p
    · exact Or.inl rfl
    · exact repairBeat_focus_enum p dec pageNum maxStoryPages genre
  · intro p f he hf h
    subst he
    exact repairBeat_focus_default p dec pageNum maxStoryPages genre f hf h
  · intro hdec
    subst hdec
    rcases env with e | p
    · rfl
    · exact repairBeat_choices_nondecision p pageNum maxStoryPages genre
  · intro hdec hfin p he
    subst hdec
    subst he
    exact repairBeat_choices_decision p pageNum maxStoryPages genre hfin
  · intro e he
    subst he
    exact ⟨rfl, rfl⟩

/-- Counterexample to C4 as stated: on the final story page
(`pageNum = MAX_STORY_PAGES`, here both 10) with the decision flag true and
a successfully parsed response supplying an empty choices list, the backfill
is skipped (`!isFinalPage` in the source) and the Beat ends with fewer than
two choices. -/
theorem generateBeat_final_decision_counterexample :
    (generateBeatRun
        (Except.ok ⟨none, none, some "The end nears.", some "hero", some []⟩)
        true 10 10 "Noir").1.choices = [] ∧
    ¬ 2 ≤ (generateBeatRun
        (Except.ok ⟨none, none, some "The end nears.", some "hero", some []⟩)
        true 10 10 "Noir").1.choices.length := by
  exact ⟨rfl, by decide⟩

/-- Witness for C4: a non-final decision page with one supplied choice gets
the two defaults backfilled, and an out-of-enum focus is forced to hero. -/
theorem generateBeat_output_contract_witness :
    (generateBeatRun
        (Except.ok ⟨none, none, some "sc", some "villain", some ["only one"]⟩)
        true 5 10 "Noir").1.choices = ["Option A", "Option B"] ∧
    (generateBeatRun
        (Except.ok ⟨none, none, some "sc", some "villain", some ["only one"]⟩)
        true 5 10 "Noir").1.focus_char = "hero" := by
  obtain ⟨_, _, hfocus, _, hdec, _⟩ := generateBeat_output_contract
    (Except.ok ⟨none, none, some "sc", some "villain", some ["only one"]⟩)
    true 5 10 "Noir"
  refine ⟨?_, ?_⟩
  · exact (hdec rfl (by decide) _ rfl).2 (Or.inr (by decide))
  · exact hfocus _ "villain" rfl rfl (by decide)

/-!
Page orchestration (`generateSinglePage`, source lines 768-793): the beat of
a page is the model-generated beat for story pages and a fixed stub for the
cover and back cover.
-/

/-- Beat selection of `generateSinglePage`: the initial
`{ scene: "", choices: [], focus_char: 'other' }` is kept unchanged for the
cover, replaced by the fixed stub for the back cover, and replaced by the
generated beat for story pages. -/
def singlePageBeat (ty : FaceType) (generated : Beat) : Beat :=
  match ty with
  | FaceType.cover =>
    { caption := none, dialogue := none, scene := "", focus_char := "other",
      choices := [] }
  | FaceType.back_cover =>
    { caption := none, dialogue := none, scene := "Thematic teaser image",
      focus_char := "other", choices := [] }
  | FaceType.story => generated

/-- Counterexample to C5 as stated: the cover page's stub beat has an empty
`scene` (the source's initial beat `{ scene: "" }` is left untouched for
`type === 'cover'`). -/
theorem coverBeat_empty_scene_counterexample :
    (singlePageBeat FaceType.cover (defaultBeat 0)).scene = "" := rfl

/-- C5 (amended): for every non-cover page with an attached beat — story
pages (whose beat comes from `generateBeat`) and the back cover (fixed
stub) — the beat's `scene` is a non-empty string; the cover's stub beat,
however, has `scene = ""`. -/
theorem singlePage_scene_invariant (ty : FaceType) (env : Except String ParsedBeat)
    (dec : Bool) (pageNum maxStoryPages : Nat) (genre : String)
    (h : ty ≠ FaceType.cover) :
    (singlePageBeat ty
      (generateBeatRun env dec pageNum maxStoryPages genre).1).scene ≠ "" := by
  cases ty with
  | cover => exact absurd rfl h
  | story => exact generateBeatRun_scene_ne_empty env dec pageNum maxStoryPages genre
  | back_cover =>
    show "Thematic teaser image" ≠ ""
    decide

/-- Witness for C5: the back cover's stub beat has the non-empty scene
"Thematic teaser image". -/
theorem singlePage_scene_invariant_witness :
    (singlePageBeat FaceType.back_cover
      (generateBeatRun (Except.error "Timeout after 30000ms") false 12 10
        "Noir").1).scene ≠ "" :=
  singlePage_scene_invariant FaceType.back_cover
    (Except.error "Timeout after 30000ms") false 12 10 "Noir" (by decide)

/-!
Image rendering (`generateImage`, source lines 549-760).

A model call's outcome at fallback level `k` is abstracted as
`env k : Except String GenResponse` — `.error e` is a raised failure with
string form `e`, `.ok r` a response.  The nested try/catch ladder (lines
672-711), the post-ladder final check and inspection (713-737), and the
outer classification catch (738-759) are embedded below.
-/

/-- An inline-data blob of a content part. -/
structure InlineData where
  mimeType : String
  data : String
deriving DecidableEq

/-- One content part of a candidate (text and/or inline data). -/
structure ContentPart where
  text : Option String := none
  inlineData : Option InlineData := none
deriving DecidableEq

/-- One response candidate. -/
structure Candidate where
  content : Option (List ContentPart) := none
  finishReason : Option String := none
deriving DecidableEq

/-- A model response; an absent candidates array is modelled as `[]`
(the source treats both identically via `!res.candidates ||
res.candidates.length === 0`). -/
structure GenResponse where
  candidates : List Candidate
deriving DecidableEq

/-- `isSafetyBlock` (source lines 667-670): the substring test that decides
whether the ladder escalates to the next level. -/
def isSafetyBlock (msg : String) : Bool :=
  strIncl msg "Safety Block" || strIncl msg "Refused" ||
    strIncl msg "SAFETY" || strIncl msg "OTHER"

/-- The message of the error thrown on an empty candidate list. -/
def safetyMsg : String := "Safety Block: Content Filtered"

/-- One ladder attempt as seen by its `catch`: a zero-candidate success is
converted into a thrown "Safety Block: Content Filtered" error (the
`if (!res.candidates || res.candidates.length === 0) throw ...` inside each
`try`).  Level 3 is not guarded this way — see `ladderRun`. -/
def attemptOutcome (env : Nat → Except String GenResponse) (k : Nat) :
    Except String GenResponse :=
  match env k with
  | Except.ok r => if r.candidates.isEmpty then Except.error safetyMsg else Except.ok r
  | Except.error e => Except.error e

/-- Innermost fallback: the level-3 call `executeGen(false, 3)` is not
guarded by a zero-candidate check of its own (source line 699); its raw
outcome flows to the post-ladder final check. -/
def ladderFrom3 (env : Nat → Except String GenResponse) :
    Except String GenResponse × List Nat :=
  (env 3, [0, 1, 2, 3])

/-- Level 2 and below of the ladder (the `catch (e2)` body, lines 687-707). -/
def ladderFrom2 (env : Nat → Except String GenResponse) :
    Except String GenResponse × List Nat :=
  match attemptOutcome env 2 with
  | Except.ok r => (Except.ok r, [0, 1, 2])
  | Except.error e2 =>
    if isSafetyBlock e2 then ladderFrom3 env else (Except.error e2, [0, 1, 2])

/-- Level 1 and below of the ladder (the `catch (e)` body, lines 678-710). -/
def ladderFrom1 (env : Nat → Except String GenResponse) :
    Except String GenResponse × List Nat :=
  match attemptOutcome env 1 with
  | Except.ok r => (Except.ok r, [0, 1])
  | Except.error e1 =>
    if isSafetyBlock e1 then ladderFrom2 env else (Except.error e1, [0, 1])

/-- The four-level fallback ladder (source lines 672-711): level `k + 1` runs
exactly when level `k`'s attempt raised an `isSafetyBlock`-classified error;
any other error is re-thrown.  The second component is the list of levels
attempted, in order. -/
def ladderRun (env : Nat → Except String GenResponse) :
    Except String GenResponse × List Nat :=
  match attemptOutcome env 0 with
  | Except.ok r => (Except.ok r, [0])
  | Except.error e0 =>
    if isSafetyBlock e0 then ladderFrom1 env else (Except.error e0, [0])

/-- The levels attempted by one `generateImage` call. -/
def attemptedLevels (env : Nat → Except String GenResponse) : List Nat :=
  (ladderRun env).2

/-- The response (or re-thrown error) the ladder settles on. -/
def ladderResult (env : Nat → Except String GenResponse) :
    Except String GenResponse :=
  (ladderRun env).1

/-- The claim's escalation condition at level `k`: the attempt raised a
safety-classified error or returned zero candidates. -/
def safetyFailure (env : Nat → Except String GenResponse) (k : Nat) : Prop :=
  (∃ e, env k = Except.error e ∧ isSafetyBlock e = true) ∨
  (∃ r, env k = Except.ok r ∧ r.candidates = [])

/-- Boolean form of `safetyFailure`. -/
def safetyFailureB (env : Nat → Except String GenResponse) (k : Nat) : Bool :=
  match env k with
  | Except.error e => isSafetyBlock e
  | Except.ok r => r.candidates.isEmpty

theorem isSafetyBlock_safetyMsg : isSafetyBlock safetyMsg = true := by decide

theorem safetyFailureB_iff (env : Nat → Except String GenResponse) (k : Nat) :
    safetyFailureB env k = true ↔ safetyFailure env k := by
  unfold safetyFailureB safetyFailure
  rcases henv : env k with e | r
  · simp
  · simp [List.isEmpty_iff]

theorem safetyFailureB_eq_attempt (env : Nat → Except String GenResponse) (k : Nat) :
    safetyFailureB env k =
      (match attemptOutcome env k with
       | Except.error e => isSafetyBlock e
       | Except.ok _ => false) := by
  unfold safetyFailureB attemptOutcome
  rcases henv : env k with e | r
  · rfl
  · show r.candidates.isEmpty =
      (match (if r.candidates.isEmpty = true then Except.error safetyMsg
          else Except.ok r) with
       | Except.error e => isSafetyBlock e
       | Except.ok _ => false)
    rcases hemp : r.candidates.isEmpty with _ | _
    · rfl
    · rfl

theorem ladderRun_spec (env : Nat → Except String GenResponse) :
    ladderRun env =
      (if safetyFailureB env 0 then ladderFrom1 env
       else (attemptOutcome env 0, [0])) := by
  unfold ladderRun
  rw [safetyFailureB_eq_attempt]
  rcases h0 : attemptOutcome env 0 with e | r
  · rfl
  · rfl

theorem ladderFrom1_spec (env : Nat → Except String GenResponse) :
    ladderFrom1 env =
      (if safetyFailureB env 1 then ladderFrom2 env
       else (attemptOutcome env 1, [0, 1])) := by
  unfold ladderFrom1
  rw [safetyFailureB_eq_attempt]
  rcases h1 : attemptOutcome env 1 with e | r
  · rfl
  · rfl

theorem ladderFrom2_spec (env : Nat → Except String GenResponse) :
    ladderFrom2 env =
      (if safetyFailureB env 2 then (env 3, [0, 1, 2, 3])
       else (attemptOutcome env 2, [0, 1, 2])) := by
  unfold ladderFrom2 ladderFrom3
  rw [safetyFailureB_eq_attempt]
  rcases h2 : attemptOutcome env 2 with e | r
  · rfl
  · rfl

/-- The attempted-levels trace as a decision tree over the per-level
escalation conditions. -/
theorem attemptedLevels_eq (env : Nat → Except String GenResponse) :
    attemptedLevels env =
      (if safetyFailureB env 0 then
        (if safetyFailureB env 1 then
          (if safetyFailureB env 2 then [0, 1, 2, 3] else [0, 1, 2])
         else [0, 1])
       else [0]) := by
  unfold attemptedLevels
  rw [ladderRun_spec, ladderFrom1_spec, ladderFrom2_spec]
  rcases b0 : safetyFailureB env 0 with _ | _
  · rfl
  · rcases b1 : safetyFailureB env 1 with _ | _
    · rfl
    · rcases b2 : safetyFailureB env 2 with _ | _
      · rfl
      · rfl

/-- The settled ladder result as a decision tree over the per-level
escalation conditions. -/
theorem ladderResult_eq (env : Nat → Except String GenResponse) :
    ladderResult env =
      (if safetyFailureB env 0 then
        (if safetyFailureB env 1 then
          (if safetyFailureB env 2 then env 3 else attemptOutcome env 2)
         else attemptOutcome env 1)
       else attemptOutcome env 0) := by
  unfold ladderResult
  rw [ladderRun_spec, ladderFrom1_spec, ladderFrom2_spec]
  rcases b0 : safetyFailureB env 0 with _ | _
  · rfl
  · rcases b1 : safetyFailureB env 1 with _ | _
    · rfl
    · rcases b2 : safetyFailureB env 2 with _ | _
      · rfl
      · rfl

/-- `res.candidates[0].content?.parts` with a missing list read as empty. -/
def partsOf (c : Candidate) : List ContentPart := c.content.getD []

/-- `parts.find(p => p.inlineData)?.inlineData`: the first part carrying an
inline-data object (possibly with empty data). -/
def firstInline (ps : List ContentPart) : Option InlineData :=
  (ps.find? (fun p => p.inlineData.isSome)).bind (·.inlineData)

/-- `parts.find(p => p.text)?.text`: the first part with a truthy (present
and non-empty) text. -/
def firstNonemptyText (ps : List ContentPart) : Option String :=
  (ps.find? (fun p => !(p.text.getD "").isEmpty)).bind (·.text)

/-- The step-(4) error message of the inspection. -/
def unknownStructureMsg : String := "No image data returned from API (Unknown Structure)"

/-- Inspection steps (2)-(4) (source lines 726-737): text part → "Model
Refused" error; truthy non-STOP finish reason → "Generation stopped" error;
otherwise the unknown-structure error. -/
def inspectTail (c : Candidate) : Except String String :=
  match firstNonemptyText (partsOf c) with
  | some t => Except.error ("Model Refused: " ++ t.take 100 ++ "...")
  | none =>
    match c.finishReason with
    | some fr =>
      if fr ≠ "" ∧ fr ≠ "STOP" then Except.error ("Generation stopped: " ++ fr)
      else Except.error unknownStructureMsg
    | none => Except.error unknownStructureMsg

/-- The post-ladder final check and inspection (source lines 713-737),
applied once to the response the ladder settled on: zero candidates → the
safety error; inline image data with non-empty payload → the data URI;
otherwise steps (2)-(4). -/
def inspectResponse (res : GenResponse) : Except String String :=
  match res.candidates with
  | [] => Except.error safetyMsg
  | c :: _ =>
    match firstInline (partsOf c) with
    | some d =>
      if d.data ≠ "" then
        Except.ok ("data:" ++ d.mimeType ++ ";base64," ++ d.data)
      else inspectTail c
    | none => inspectTail c

/-- The outcome of `generateImage`: a data URI or a locally generated
placeholder image. -/
inductive GenImageOutput where
  | dataURI (uri : String)
  | placeholderImg (label : String)
deriving DecidableEq

/-- `createPlaceholderImage(text)` (source lines 121-141) draws a local
canvas placeholder labelled by `text`; the canvas itself is an external
collaborator, so the placeholder is modelled as a value tagged with the
distinguishing label. -/
def createPlaceholderImage (text : String) : GenImageOutput :=
  GenImageOutput.placeholderImg text

/-- The safety test of the outer catch (source line 749); unlike
`isSafetyBlock` it does not match "OTHER". -/
def isSafetyCatch (msg : String) : Bool :=
  strIncl msg "Safety Block" || strIncl msg "Refused" || strIncl msg "SAFETY"

/-- The outer catch of `generateImage` (source lines 738-759): auth errors
escalate (invoke `handleAPIError`, recorded in the boolean) and give the
auth placeholder; safety-pattern errors the content-filtered placeholder;
everything else the generic placeholder. -/
def classifyFailure (e : String) : GenImageOutput × Bool :=
  if isAuthMessage e then (createPlaceholderImage "AUTH ERROR", true)
  else if isSafetyCatch e then (createPlaceholderImage "CONTENT FILTERED", false)
  else (createPlaceholderImage "IMAGE GEN FAILED", false)

/-- The body of `generateImage`'s outer `try`: ladder, then the single
post-ladder inspection. -/
def generateImageCore (env : Nat → Except String GenResponse) :
    Except String String :=
  match ladderResult env with
  | Except.ok res => inspectResponse res
  | Except.error e => Except.error e

/-- `generateImage`: the returned output, whether `handleAPIError` was
invoked, and the ladder levels attempted. -/
def generateImageRun (env : Nat → Except String GenResponse) :
    GenImageOutput × Bool × List Nat :=
  match generateImageCore env with
  | Except.ok uri => (GenImageOutput.dataURI uri, false, attemptedLevels env)
  | Except.error e => ((classifyFailure e).1, (classifyFailure e).2, attemptedLevels env)

/-!
Prompt construction (`buildPrompt`, source lines 560-603, and the request
parts of `executeGen`, lines 605-654).  `LANGUAGES` lives in the missing
`types.ts`; the resolved language name is carried directly in the
configuration record.
-/

/-- The settings `generateImage` reads (refs and session settings). -/
structure GenCfg where
  hero : Option Persona := none
  friend : Option Persona := none
  refStrength : Nat := 2
  genre : String := "Superhero Action"
  langName : String := "English"
  issueNumber : Nat := 1
  isFinale : Bool := false
deriving DecidableEq

/-- The alternatives of the violent-vocabulary pattern, in source order
(`fight|punch|kill|blood|attack|shoot|battle|war|weapon|corpse|violence|injury|death|dead`). -/
def violentWords : List (List Char) :=
  ["fight", "punch", "kill", "blood", "attack", "shoot", "battle", "war",
   "weapon", "corpse", "violence", "injury", "death", "dead"].map String.data

/-- Case-insensitive prefix match of a lowercase pattern. -/
def matchesPrefixCI : List Char → List Char → Bool
  | [], _ => true
  | _ :: _, [] => false
  | a :: ws, b :: ls => (a == b.toLower) && matchesPrefixCI ws ls

/-- The first alternative (in order) matching at the current position, as its
length. -/
def firstAltLength (words : List (List Char)) (l : List Char) : Option Nat :=
  match words with
  | [] => none
  | w :: ws => if matchesPrefixCI w l then some w.length else firstAltLength ws l

/-- Global case-insensitive `replace(..., "confrontation")`: at each position
the first matching alternative is replaced and scanning resumes after the
match.  Structural recursion on a fuel that starts at the list length (every
step consumes at least one character, so the fuel never runs out). -/
def replaceViolentGo : Nat → List Char → List Char
  | _, [] => []
  | 0, l => l
  | fuel + 1, c :: t =>
    match firstAltLength violentWords (c :: t) with
    | some n => "confrontation".data ++ replaceViolentGo fuel (t.drop (n - 1))
    | none => c :: replaceViolentGo fuel t

/-- The scene sanitizer used at retry levels 1 and 2. -/
def replaceViolent (s : String) : String :=
  ⟨replaceViolentGo s.data.length s.data⟩

/-- `buildPrompt(retryLevel)` (source lines 560-603). -/
def buildPrompt (cfg : GenCfg) (ty : FaceType) (beat : Beat)
    (retryLevel : Nat) : String :=
  let styleEra := if cfg.genre = "Custom" then "Modern American" else cfg.genre
  let originalScene := if beat.scene = "" then
      "A scene featuring the " ++ cfg.genre ++ " style"
    else beat.scene
  let text0 := "STYLE: " ++ styleEra ++ " comic book art. Fictional Character Art. "
  let text1 := if retryLevel > 0 then
      text0 ++ "SAFE MODE: Fictional illustration. Fantasy art. No photorealism. "
    else text0
  match ty with
  | FaceType.cover =>
    let title := if cfg.isFinale then "THE FINALE"
      else "ISSUE #" ++ toString cfg.issueNumber
    let t2 := text1 ++ "TYPE: Comic Book Cover. TITLE: \"INFINITE HEROES " ++
      title ++ "\" (OR LOCALIZED TRANSLATION IN " ++ cfg.langName.toUpper ++ "). "
    if retryLevel > 0 then
      t2 ++ "Main visual: Character Portrait of [HERO]. Standing Pose. Masterpiece."
    else
      t2 ++ "Main visual: Dynamic action shot of [HERO]."
  | FaceType.back_cover =>
    let nextText := if cfg.isFinale then "THE END" else "NEXT ISSUE SOON"
    text1 ++ "TYPE: Comic Back Cover. FULL PAGE VERTICAL ART. Dramatic teaser. Text: \"" ++
      nextText ++ "\"."
  | FaceType.story =>
    let t2 := text1 ++ "TYPE: Vertical comic panel. "
    let t3 := if retryLevel = 2 then
        t2 ++ "SCENE: " ++ replaceViolent originalScene ++ ". "
      else
        t2 ++ "SCENE: " ++
          (if retryLevel = 1 then replaceViolent originalScene else originalScene) ++ ". "
    let t4 := t3 ++
      "INSTRUCTIONS: Create a fictional comic book illustration. Artistic interpretation. "
    let t5 := match beat.caption with
      | some c => if c ≠ "" then t4 ++ " INCLUDE CAPTION BOX: \"" ++ c ++ "\"" else t4
      | none => t4
    match beat.dialogue with
    | some d => if d ≠ "" then t5 ++ " INCLUDE SPEECH BUBBLE: \"" ++ d ++ "\"" else t5
    | none => t5

/-- The reference-fidelity wording by strength (3 = strict, 1 = loose,
default balanced). -/
def refUsageInstruction (refStrength : Nat) : String :=
  if refStrength = 3 then
    " (Use these REFERENCES strictly. Maintain character consistency and facial features as much as possible while applying the comic style)."
  else if refStrength = 1 then
    " (Loosely inspired by the references. Create a new character with similar costume vibes but unique features)."
  else
    " (Use these COSTUME REFERENCES to design the fictional characters. Do NOT generate a photorealistic replica. Stylize heavily)."

/-- The request parts built by `executeGen(useRefs, retryLevel)` (source
lines 605-654): references are included only when `useRefs` holds and the
level is below 3; the level-3 fallback is a single text part from the
personas' textual descriptions. -/
def executeGenParts (cfg : GenCfg) (ty : FaceType) (beat : Beat)
    (useRefs : Bool) (retryLevel : Nat) : List ContentPart :=
  if useRefs && decide (retryLevel < 3) then
    let heroParts := match cfg.hero with
      | some h =>
        if h.base64 ≠ "" then
          [({ text := some "REFERENCE CHARACTER 1 (HERO) - FICTIONAL CHARACTER SHEET:" } : ContentPart),
           ({ inlineData := some ⟨h.mimeType, h.base64⟩ } : ContentPart)]
        else []
      | none => []
    let friendParts := match cfg.friend with
      | some f =>
        if f.base64 ≠ "" then
          [({ text := some "REFERENCE CHARACTER 2 (CO-STAR) - FICTIONAL CHARACTER SHEET:" } : ContentPart),
           ({ inlineData := some ⟨f.mimeType, f.base64⟩ } : ContentPart)]
        else []
      | none => []
    let usage0 := refUsageInstruction cfg.refStrength
    let usage := if retryLevel > 0 then
        usage0 ++
          " TRANSFORM THE CHARACTER: Alter features slightly to fit the artistic style. Fictionalize the identity."
      else usage0
    heroParts ++ friendParts ++
      [{ text := some (buildPrompt cfg ty beat retryLevel ++ usage) }]
  else
    let descH := match cfg.hero with
      | some h => if h.desc ≠ "" then " HERO: " ++ h.desc ++ "." else ""
      | none => ""
    let descF := match cfg.friend with
      | some f => if f.desc ≠ "" then " CO-STAR: " ++ f.desc ++ "." else ""
      | none => ""
    [{ text := some (buildPrompt cfg ty beat retryLevel ++ (descH ++ descF) ++
        " Fictional characters. Generic superhero features. High contrast comic art.") }]

/-- `!!heroRef.current?.base64`: the `useRefs` flag of the level 0-2 calls. -/
def heroHasImage (cfg : GenCfg) : Bool :=
  match cfg.hero with
  | some h => decide (h.base64 ≠ "")
  | none => false

/-- The request parts of the ladder call at level `k`: `executeGen(!!hero?.base64, k)`
for `k < 3` and `executeGen(false, 3)` at the last resort (source lines 676,
684, 692, 699). -/
def requestParts (cfg : GenCfg) (ty : FaceType) (beat : Beat) (k : Nat) :
    List ContentPart :=
  if k < 3 then executeGenParts cfg ty beat (heroHasImage cfg) k
  else executeGenParts cfg ty beat false k

theorem hasSubList_nil_pat (l : List Char) : hasSubList [] l = true := by
  cases l with
  | nil => rfl
  | cons c t => rfl

theorem hasSubList_append_left (pat a b : List Char)
    (h : hasSubList pat a = true) : hasSubList pat (a ++ b) = true := by
  induction a with
  | nil =>
    cases pat with
    | nil => exact hasSubList_nil_pat b
    | cons c t => simp [hasSubList] at h
  | cons c t ih =>
    simp only [hasSubList, Bool.or_eq_true] at h
    rcases h with h | h
    · simp only [List.cons_append, hasSubList, Bool.or_eq_true]
      exact Or.inl (List.isPrefixOf_iff_prefix.mpr
        ((List.isPrefixOf_iff_prefix.mp h).trans (List.prefix_append _ _)))
    · simp only [List.cons_append, hasSubList, Bool.or_eq_true]
      exact Or.inr (ih h)

theorem strIncl_append_left (s t pat : String) (h : strIncl s pat = true) :
    strIncl (s ++ t) pat = true := by
  unfold strIncl at h ⊢
  rw [String.data_append]
  exact hasSubList_append_left _ _ _ h

theorem modelRefused_isSafetyBlock (t : String) :
    isSafetyBlock ("Model Refused: " ++ t ++ "...") = true := by
  unfold isSafetyBlock
  have h1 : strIncl ("Model Refused: " ++ t) "Refused" = true :=
    strIncl_append_left "Model Refused: " t "Refused" (by decide)
  have h2 : strIncl ("Model Refused: " ++ t ++ "...") "Refused" = true :=
    strIncl_append_left ("Model Refused: " ++ t) "..." "Refused" h1
  simp [h2]

theorem modelRefused_isSafetyCatch (t : String) :
    isSafetyCatch ("Model Refused: " ++ t ++ "...") = true := by
  unfold isSafetyCatch
  have h1 : strIncl ("Model Refused: " ++ t) "Refused" = true :=
    strIncl_append_left "Model Refused: " t "Refused" (by decide)
  have h2 : strIncl ("Model Refused: " ++ t ++ "...") "Refused" = true :=
    strIncl_append_left ("Model Refused: " ++ t) "..." "Refused" h1
  simp [h2]

theorem inspectResponse_image (res : GenResponse) (c : Candidate)
    (rest : List Candidate) (d : InlineData) (hres : res.candidates = c :: rest)
    (hfi : firstInline (partsOf c) = some d) (hd : d.data ≠ "") :
    inspectResponse res =
      Except.ok ("data:" ++ d.mimeType ++ ";base64," ++ d.data) := by
  obtain ⟨cands⟩ := res
  simp only at hres
  subst hres
  show (match firstInline (partsOf c) with
    | some d =>
      if d.data ≠ "" then
        Except.ok ("data:" ++ d.mimeType ++ ";base64," ++ d.data)
      else inspectTail c
    | none => inspectTail c) = _
  rw [hfi]
  simp only []
  rw [if_pos hd]

theorem inspectResponse_tail (res : GenResponse) (c : Candidate)
    (rest : List Candidate) (hres : res.candidates = c :: rest)
    (hni : firstInline (partsOf c) = none ∨
      (∃ d, firstInline (partsOf c) = some d ∧ d.data = "")) :
    inspectResponse res = inspectTail c := by
  obtain ⟨cands⟩ := res
  simp only at hres
  subst hres
  show (match firstInline (partsOf c) with
    | some d =>
      if d.data ≠ "" then
        Except.ok ("data:" ++ d.mimeType ++ ";base64," ++ d.data)
      else inspectTail c
    | none => inspectTail c) = _
  rcases hni with hni | ⟨d, hfi, hd⟩
  · rw [hni]
  · rw [hfi]
    simp only []
    rw [if_neg (by simp [hd])]

theorem inspectTail_refusal (c : Candidate) (t : String)
    (ht : firstNonemptyText (partsOf c) = some t) :
    inspectTail c = Except.error ("Model Refused: " ++ t.take 100 ++ "...") := by
  unfold inspectTail
  rw [ht]

theorem inspectTail_finishReason (c : Candidate) (fr : String)
    (ht : firstNonemptyText (partsOf c) = none)
    (hfr : c.finishReason = some fr) (h1 : fr ≠ "") (h2 : fr ≠ "STOP") :
    inspectTail c = Except.error ("Generation stopped: " ++ fr) := by
  unfold inspectTail
  rw [ht, hfr]
  simp only []
  rw [if_pos ⟨h1, h2⟩]

theorem inspectTail_unknown (c : Candidate)
    (ht : firstNonemptyText (partsOf c) = none)
    (hfr : c.finishReason = none ∨ c.finishReason = some "" ∨
      c.finishReason = some "STOP") :
    inspectTail c = Except.error unknownStructureMsg := by
  unfold inspectTail
  rw [ht]
  rcases hfr with hfr | hfr | hfr
  · rw [hfr]
  · rw [hfr]
    simp only []
    rw [if_neg (by simp)]
  · rw [hfr]
    simp only []
    rw [if_neg (by simp)]

/-- C3: `generateImage` is total — every run returns either a data URI or
one of exactly the three locally generated placeholders (content-filtered /
generation-failed / auth-error); an escaped error whose message matches the
auth patterns yields the auth placeholder AND invokes `handleAPIError` (the
credential-re-entry escalation), and the escalation fires only for such
errors. -/
theorem generateImage_total_placeholders (env : Nat → Except String GenResponse) :
    ((∃ u, (generateImageRun env).1 = GenImageOutput.dataURI u) ∨
      (generateImageRun env).1 = createPlaceholderImage "CONTENT FILTERED" ∨
      (generateImageRun env).1 = createPlaceholderImage "IMAGE GEN FAILED" ∨
      (generateImageRun env).1 = createPlaceholderImage "AUTH ERROR") ∧
    (∀ e, generateImageCore env = Except.error e → isAuthMessage e = true →
      (generateImageRun env).1 = createPlaceholderImage "AUTH ERROR" ∧
      (generateImageRun env).2.1 = true) ∧
    ((generateImageRun env).2.1 = true →
      ∃ e, generateImageCore env = Except.error e ∧ isAuthMessage e = true) := by
  rcases hc : generateImageCore env with e | u
  · refine ⟨?_, ?_, ?_⟩
    · by_cases ha : isAuthMessage e = true
      · exact Or.inr (Or.inr (Or.inr (by simp [generateImageRun, hc, classifyFailure, ha])))
      · by_cases hs : isSafetyCatch e = true
        · exact Or.inr (Or.inl (by simp [generateImageRun, hc, classifyFailure, ha, hs]))
        · exact Or.inr (Or.inr (Or.inl (by simp [generateImageRun, hc, classifyFailure, ha, hs])))
    · intro e' he ha
      injection he with he
      subst he
      constructor
      · simp [generateImageRun, hc, classifyFailure, ha]
      · simp [generateImageRun, hc, classifyFailure, ha]
    · intro hesc
      refine ⟨e, rfl, ?_⟩
      by_contra ha
      by_cases hs : isSafetyCatch e = true
      · simp [generateImageRun, hc, classifyFailure, ha, hs] at hesc
      · simp [generateImageRun, hc, classifyFailure, ha, hs] at hesc
  · refine ⟨Or.inl ⟨u, by simp [generateImageRun, hc]⟩, ?_, ?_⟩
    · intro e he
      cases he
    · intro hesc
      simp [generateImageRun, hc] at hesc

/-- Witness for C3: a persistent auth failure ("API_KEY_INVALID") yields the
auth placeholder and invokes the escalation. -/
theorem generateImage_total_placeholders_witness :
    (generateImageRun (fun _ => Except.error "API_KEY_INVALID: key missing")).1 =
      createPlaceholderImage "AUTH ERROR" ∧
    (generateImageRun (fun _ => Except.error "API_KEY_INVALID: key missing")).2.1 = true := by
  obtain ⟨_, hauth, _⟩ :=
    generateImage_total_placeholders (fun _ => Except.error "API_KEY_INVALID: key missing")
  exact hauth "API_KEY_INVALID: key missing" rfl (by decide)

/-- Counterexample to C2 as stated: at level 0 the model returns one
candidate with no image part, no text part and finish reason "RECITATION";
the resulting error "Generation stopped: RECITATION" matches none of the
`isSafetyBlock` patterns, so it is NOT classified as a safety block, no
further ladder level is attempted (trace stays `[0]`), and the generic —
not the content-filtered — placeholder is returned. -/
theorem inspect_finishReason_counterexample :
    (generateImageRun (fun _ =>
      Except.ok ⟨[⟨some [], some "RECITATION"⟩]⟩)).2.2 = [0] ∧
    (generateImageRun (fun _ =>
      Except.ok ⟨[⟨some [], some "RECITATION"⟩]⟩)).1 =
      createPlaceholderImage "IMAGE GEN FAILED" ∧
    isSafetyBlock "Generation stopped: RECITATION" = false := by
  exact ⟨rfl, rfl, by decide⟩

/-- C2 (amended): the response inspection runs ONCE, after the ladder has
settled, in the order (1) inline image data of the first candidate → data
URI; (2) else a truthy text part → "Model Refused" error, which IS
classified as a safety block by both classifiers; (3) else a truthy
non-STOP finish reason → "Generation stopped: <reason>" error — such an
error is classified as a safety block only when the reason text itself
matches the safety patterns; (4) else the generic "unknown structure"
error.  The attempted-levels trace never depends on the inspection result:
inspection errors do not trigger further ladder levels. -/
theorem inspection_order (res : GenResponse) (c : Candidate)
    (rest : List Candidate) (hres : res.candidates = c :: rest) :
    (∀ d, firstInline (partsOf c) = some d → d.data ≠ "" →
      inspectResponse res =
        Except.ok ("data:" ++ d.mimeType ++ ";base64," ++ d.data)) ∧
    ((firstInline (partsOf c) = none ∨
        (∃ d, firstInline (partsOf c) = some d ∧ d.data = "")) →
      (∀ t, firstNonemptyText (partsOf c) = some t →
        inspectResponse res =
          Except.error ("Model Refused: " ++ t.take 100 ++ "...") ∧
        isSafetyBlock ("Model Refused: " ++ t.take 100 ++ "...") = true ∧
        isSafetyCatch ("Model Refused: " ++ t.take 100 ++ "...") = true) ∧
      (firstNonemptyText (partsOf c) = none →
        (∀ fr, c.finishReason = some fr → fr ≠ "" → fr ≠ "STOP" →
          inspectResponse res = Except.error ("Generation stopped: " ++ fr)) ∧
        ((c.finishReason = none ∨ c.finishReason = some "" ∨
            c.finishReason = some "STOP") →
          inspectResponse res = Except.error unknownStructureMsg))) ∧
    (isSafetyBlock "Generation stopped: RECITATION" = false ∧
      isSafetyBlock "Generation stopped: SAFETY" = true) ∧
    (∀ env, (generateImageRun env).2.2 = attemptedLevels env) := by
  refine ⟨?_, ?_, ⟨by decide, by decide⟩, ?_⟩
  · intro d hfi hd
    exact inspectResponse_image res c rest d hres hfi hd
  · intro hni
    have htail : inspectResponse res = inspectTail c :=
      inspectResponse_tail res c rest hres hni
    refine ⟨?_, ?_⟩
    · intro t ht
      exact ⟨htail.trans (inspectTail_refusal c t ht),
        modelRefused_isSafetyBlock (t.take 100),
        modelRefused_isSafetyCatch (t.take 100)⟩
    · intro ht
      refine ⟨?_, ?_⟩
      · intro fr hfr h1 h2
        exact htail.trans (inspectTail_finishReason c fr ht hfr h1 h2)
      · intro hfr
        exact htail.trans (inspectTail_unknown c ht hfr)
  · intro env'
    rcases hc : generateImageCore env' with e | u
    · simp [generateImageRun, hc]
    · simp [generateImageRun, hc]

/-- Witness for C2's amended theorem: a candidate whose only part is a
refusal text produces the "Model Refused" error, safety-classified. -/
theorem inspection_order_witness :
    inspectResponse ⟨[⟨some [⟨some "I cannot draw this.", none⟩], some "STOP"⟩]⟩ =
      Except.error ("Model Refused: " ++ "I cannot draw this." ++ "...") ∧
    isSafetyBlock ("Model Refused: " ++ "I cannot draw this." ++ "...") = true := by
  obtain ⟨_, h2, _, _⟩ := inspection_order
    ⟨[⟨some [⟨some "I cannot draw this.", none⟩], some "STOP"⟩]⟩
    ⟨some [⟨some "I cannot draw this.", none⟩], some "STOP"⟩ [] rfl
  obtain ⟨hrefusal, _⟩ := h2 (Or.inl (by decide))
  obtain ⟨hi, hsb, _⟩ := hrefusal "I cannot draw this." (by decide)
  constructor
  · rw [hi]
    rfl
  · exact ((by decide : ("I cannot draw this." : String).take 100 =
      "I cannot draw this.") ▸ hsb)

theorem attempted_cases (env : Nat → Except String GenResponse) :
    attemptedLevels env = [0] ∨ attemptedLevels env = [0, 1] ∨
    attemptedLevels env = [0, 1, 2] ∨ attemptedLevels env = [0, 1, 2, 3] := by
  rw [attemptedLevels_eq]
  rcases b0 : safetyFailureB env 0 with _ | _
  · exact Or.inl rfl
  · rcases b1 : safetyFailureB env 1 with _ | _
    · exact Or.inr (Or.inl rfl)
    · rcases b2 : safetyFailureB env 2 with _ | _
      · exact Or.inr (Or.inr (Or.inl rfl))
      · exact Or.inr (Or.inr (Or.inr rfl))

theorem attempted_succ_iff (env : Nat → Except String GenResponse) (k : Nat) :
    (k + 1) ∈ attemptedLevels env ↔
      (k ∈ attemptedLevels env ∧ k < 3 ∧ safetyFailure env k) := by
  rw [attemptedLevels_eq]
  rcases b0 : safetyFailureB env 0 with _ | _
  · constructor
    · intro h
      simp at h
    · rintro ⟨hk, _, hsf⟩
      simp at hk
      subst hk
      rw [← safetyFailureB_iff, b0] at hsf
      cases hsf
  · rcases b1 : safetyFailureB env 1 with _ | _
    · constructor
      · intro h
        simp at h
        have hk : k = 0 := by omega
        subst hk
        exact ⟨by simp, by omega, (safetyFailureB_iff env 0).mp b0⟩
      · rintro ⟨hk, _, hsf⟩
        simp at hk
        rcases hk with rfl | rfl
        · simp
        · rw [← safetyFailureB_iff, b1] at hsf
          cases hsf
    · rcases b2 : safetyFailureB env 2 with _ | _
      · constructor
        · intro h
          simp at h
          have hk : k = 0 ∨ k = 1 := by omega
          rcases hk with rfl | rfl
          · exact ⟨by simp, by omega, (safetyFailureB_iff env 0).mp b0⟩
          · exact ⟨by simp, by omega, (safetyFailureB_iff env 1).mp b1⟩
        · rintro ⟨hk, _, hsf⟩
          simp at hk
          rcases hk with rfl | rfl | rfl
          · simp
          · simp
          · rw [← safetyFailureB_iff, b2] at hsf
            cases hsf
      · constructor
        · intro h
          simp at h
          have hk : k = 0 ∨ k = 1 ∨ k = 2 := by omega
          rcases hk with rfl | rfl | rfl
          · exact ⟨by simp, by omega, (safetyFailureB_iff env 0).mp b0⟩
          · exact ⟨by simp, by omega, (safetyFailureB_iff env 1).mp b1⟩
          · exact ⟨by simp, by omega, (safetyFailureB_iff env 2).mp b2⟩
        · rintro ⟨hk, hk3, _⟩
          simp at hk
          rcases hk with rfl | rfl | rfl | rfl
          · simp
          · simp
          · simp
          · omega

theorem sfB_false_of_error (env : Nat → Except String GenResponse) (k : Nat)
    (e : String) (he : env k = Except.error e) (hsb : isSafetyBlock e = false) :
    safetyFailureB env k = false := by
  unfold safetyFailureB
  rw [he]
  exact hsb

theorem sfB_false_of_ok_nonempty (env : Nat → Except String GenResponse)
    (k : Nat) (r : GenResponse) (he : env k = Except.ok r)
    (hne : r.candidates ≠ []) : safetyFailureB env k = false := by
  unfold safetyFailureB
  rw [he]
  simpa [List.isEmpty_iff] using hne

theorem attemptOutcome_of_error (env : Nat → Except String GenResponse)
    (k : Nat) (e : String) (he : env k = Except.error e) :
    attemptOutcome env k = Except.error e := by
  unfold attemptOutcome
  rw [he]

theorem attemptOutcome_of_ok_nonempty (env : Nat → Except String GenResponse)
    (k : Nat) (r : GenResponse) (he : env k = Except.ok r)
    (hne : r.candidates ≠ []) : attemptOutcome env k = Except.ok r := by
  unfold attemptOutcome
  rw [he]
  show (if r.candidates.isEmpty = true then Except.error safetyMsg
    else Except.ok r) = Except.ok r
  rw [if_neg (by simpa [List.isEmpty_iff] using hne)]

theorem ladder_ends_at (env : Nat → Except String GenResponse) (k : Nat)
    (hk : k ∈ attemptedLevels env) (hbk : safetyFailureB env k = false) :
    (attemptedLevels env).getLast? = some k ∧
    (k = 3 → ladderResult env = env 3) ∧
    (k ≠ 3 → ladderResult env = attemptOutcome env k) := by
  rw [attemptedLevels_eq] at hk ⊢
  rw [ladderResult_eq]
  rcases b0 : safetyFailureB env 0 with _ | _ <;> rw [b0] at hk
  · simp at hk
    subst hk
    exact ⟨rfl, fun h => absurd h (by omega), fun _ => rfl⟩
  · rcases b1 : safetyFailureB env 1 with _ | _ <;> rw [b1] at hk
    · simp at hk
      rcases hk with rfl | rfl
      · rw [b0] at hbk
        cases hbk
      · exact ⟨rfl, fun h => absurd h (by omega), fun _ => rfl⟩
    · rcases b2 : safetyFailureB env 2 with _ | _ <;> rw [b2] at hk
      · simp at hk
        rcases hk with rfl | rfl | rfl
        · rw [b0] at hbk
          cases hbk
        · rw [b1] at hbk
          cases hbk
        · exact ⟨rfl, fun h => absurd h (by omega), fun _ => rfl⟩
      · simp at hk
        rcases hk with rfl | rfl | rfl | rfl
        · rw [b0] at hbk
          cases hbk
        · rw [b1] at hbk
          cases hbk
        · rw [b2] at hbk
          cases hbk
        · exact ⟨rfl, fun _ => rfl, fun h => absurd rfl h⟩

theorem ladder_abort_on_generic (env : Nat → Except String GenResponse)
    (k : Nat) (e : String) (hk : k ∈ attemptedLevels env)
    (he : env k = Except.error e) (hsb : isSafetyBlock e = false) :
    (attemptedLevels env).getLast? = some k ∧
    ladderResult env = Except.error e := by
  have hbk := sfB_false_of_error env k e he hsb
  obtain ⟨hlast, h3, hn3⟩ := ladder_ends_at env k hk hbk
  refine ⟨hlast, ?_⟩
  by_cases hk3 : k = 3
  · subst hk3
    rw [h3 rfl, he]
  · rw [hn3 hk3]
    exact attemptOutcome_of_error env k e he

theorem ladder_stop_on_response (env : Nat → Except String GenResponse)
    (k : Nat) (r : GenResponse) (hk : k ∈ attemptedLevels env)
    (he : env k = Except.ok r) (hne : r.candidates ≠ []) :
    (attemptedLevels env).getLast? = some k ∧
    ladderResult env = Except.ok r := by
  have hbk := sfB_false_of_ok_nonempty env k r he hne
  obtain ⟨hlast, h3, hn3⟩ := ladder_ends_at env k hk hbk
  refine ⟨hlast, ?_⟩
  by_cases hk3 : k = 3
  · subst hk3
    rw [h3 rfl, he]
  · rw [hn3 hk3]
    exact attemptOutcome_of_ok_nonempty env k r he hne

theorem requestParts3_eq (cfg : GenCfg) (ty : FaceType) (beat : Beat) :
    requestParts cfg ty beat 3 =
      [(⟨some (buildPrompt cfg ty beat 3 ++
          ((match cfg.hero with
            | some h => if h.desc ≠ "" then " HERO: " ++ h.desc ++ "." else ""
            | none => "") ++
           (match cfg.friend with
            | some f => if f.desc ≠ "" then " CO-STAR: " ++ f.desc ++ "." else ""
            | none => "")) ++
          " Fictional characters. Generic superhero features. High contrast comic art."),
        none⟩ : ContentPart)] := by
  unfold requestParts
  rw [if_neg (by omega)]
  unfold executeGenParts
  rw [if_neg (by simp)]

/-- C1: the fallback ladder attempts levels in strict order with no skips or
repeats (the trace is a non-empty prefix of [0,1,2,3]); level k+1 is
attempted iff level k was attempted, k < 3, and level k raised a
safety-classified error or returned zero candidates; a non-safety error at
any attempted level aborts the ladder there, that error becoming the settled
outcome; a response with valid inline image data at any attempted level ends
the ladder there and `generateImage` returns its data URI; and the level-3
request drops reference images entirely — no request part carries inline
data — falling back to the personas' textual descriptions in the prompt. -/
theorem generateImage_fallback_ladder (env : Nat → Except String GenResponse)
    (cfg : GenCfg) (ty : FaceType) (beat : Beat) :
    (attemptedLevels env = [0] ∨ attemptedLevels env = [0, 1] ∨
      attemptedLevels env = [0, 1, 2] ∨ attemptedLevels env = [0, 1, 2, 3]) ∧
    (∀ k : Nat, (k + 1) ∈ attemptedLevels env ↔
      (k ∈ attemptedLevels env ∧ k < 3 ∧ safetyFailure env k)) ∧
    (∀ k e, k ∈ attemptedLevels env → env k = Except.error e →
      isSafetyBlock e = false →
      (attemptedLevels env).getLast? = some k ∧
      ladderResult env = Except.error e) ∧
    (∀ k r c rest d, k ∈ attemptedLevels env → env k = Except.ok r →
      r.candidates = c :: rest → firstInline (partsOf c) = some d →
      d.data ≠ "" →
      (attemptedLevels env).getLast? = some k ∧
      ladderResult env = Except.ok r ∧
      (generateImageRun env).1 =
        GenImageOutput.dataURI ("data:" ++ d.mimeType ++ ";base64," ++ d.data)) ∧
    (∀ pt ∈ requestParts cfg ty beat 3, pt.inlineData = none) ∧
    (∀ h, cfg.hero = some h → h.desc ≠ "" →
      ∃ pre post, requestParts cfg ty beat 3 =
        [{ text := some (pre ++ h.desc ++ post), inlineData := none }]) := by
  refine ⟨attempted_cases env, attempted_succ_iff env, ?_, ?_, ?_, ?_⟩
  · intro k e hk he hsb
    exact ladder_abort_on_generic env k e hk he hsb
  · intro k r c rest d hk he hcand hfi hd
    obtain ⟨hlast, hres⟩ := ladder_stop_on_response env k r hk he
      (by rw [hcand]; exact List.cons_ne_nil c rest)
    refine ⟨hlast, hres, ?_⟩
    have hcore : generateImageCore env =
        Except.ok ("data:" ++ d.mimeType ++ ";base64," ++ d.data) := by
      unfold generateImageCore
      rw [hres]
      exact inspectResponse_image r c rest d hcand hfi hd
    simp [generateImageRun, hcore]
  · intro pt hpt
    rw [requestParts3_eq] at hpt
    simp at hpt
    rw [hpt]
  · intro h hh hd
    refine ⟨buildPrompt cfg ty beat 3 ++ " HERO: ",
      "." ++
        (match cfg.friend with
         | some f => if f.desc ≠ "" then " CO-STAR: " ++ f.desc ++ "." else ""
         | none => "") ++
        " Fictional characters. Generic superhero features. High contrast comic art.", ?_⟩
    rw [requestParts3_eq, hh]
    simp only []
    rw [if_pos hd]
    simp [String.append_assoc]

/-- Witness for C1, at the specification's scenario: zero candidates at
levels 0-2, valid image data at level 3 → all four levels attempted in
order, the final output is the real data URI, and the level-3 request has no
inline-data parts while naming the hero's textual description. -/
theorem generateImage_fallback_ladder_witness :
    attemptedLevels (fun k =>
      if k < 3 then Except.ok ⟨[]⟩
      else Except.ok ⟨[⟨some [⟨none, some ⟨"image/png", "QUJD"⟩⟩], some "STOP"⟩]⟩) =
      [0, 1, 2, 3] ∧
    (generateImageRun (fun k =>
      if k < 3 then Except.ok ⟨[]⟩
      else Except.ok ⟨[⟨some [⟨none, some ⟨"image/png", "QUJD"⟩⟩], some "STOP"⟩]⟩)).1 =
      GenImageOutput.dataURI ("data:" ++ "image/png" ++ ";base64," ++ "QUJD") ∧
    (∀ pt ∈ requestParts
        { hero := some ⟨"abc", "image/jpeg", "A brave kid"⟩, friend := none,
          refStrength := 2, genre := "Superhero Action", langName := "English",
          issueNumber := 1, isFinale := false }
        FaceType.story ⟨none, none, "A rooftop chase", "hero", []⟩ 3,
      pt.inlineData = none) := by
  obtain ⟨hcases, _, _, hstop, hparts, _⟩ := generateImage_fallback_ladder
    (fun k =>
      if k < 3 then Except.ok ⟨[]⟩
      else Except.ok ⟨[⟨some [⟨none, some ⟨"image/png", "QUJD"⟩⟩], some "STOP"⟩]⟩)
    { hero := some ⟨"abc", "image/jpeg", "A brave kid"⟩, friend := none,
      refStrength := 2, genre := "Superhero Action", langName := "English",
      issueNumber := 1, isFinale := false }
    FaceType.story ⟨none, none, "A rooftop chase", "hero", []⟩
  refine ⟨rfl, ?_, hparts⟩
  exact (hstop 3 ⟨[⟨some [⟨none, some ⟨"image/png", "QUJD"⟩⟩], some "STOP"⟩]⟩
    ⟨some [⟨none, some ⟨"image/png", "QUJD"⟩⟩], some "STOP"⟩ []
    ⟨"image/png", "QUJD"⟩ (by decide) rfl rfl (by decide) (by decide)).2.2

/-!
Scene treatment across the fallback levels (C8).
-/

/-- The level > 0 safety qualifier. -/
def safeModeText : String :=
  "SAFE MODE: Fictional illustration. Fantasy art. No photorealism. "

/-- The caption addition of a story prompt. -/
def capSuffix (beat : Beat) : String :=
  match beat.caption with
  | some c => if c ≠ "" then " INCLUDE CAPTION BOX: \"" ++ c ++ "\"" else ""
  | none => ""

/-- The dialogue addition of a story prompt. -/
def diaSuffix (beat : Beat) : String :=
  match beat.dialogue with
  | some d => if d ≠ "" then " INCLUDE SPEECH BUBBLE: \"" ++ d ++ "\"" else ""
  | none => ""

theorem str_append_empty (s : String) : s ++ "" = s := by
  apply String.ext
  rw [String.data_append]
  exact List.append_nil _

theorem cap_append (t : String) (beat : Beat) :
    (match beat.caption with
     | some c => if c ≠ "" then t ++ " INCLUDE CAPTION BOX: \"" ++ c ++ "\"" else t
     | none => t) = t ++ capSuffix beat := by
  unfold capSuffix
  rcases beat.caption with _ | c
  · exact (str_append_empty t).symm
  · by_cases hc : c = ""
    · simp only []
      rw [if_neg (by simp [hc]), if_neg (by simp [hc])]
      exact (str_append_empty t).symm
    · simp only []
      rw [if_pos hc, if_pos hc]
      simp [String.append_assoc]

theorem dia_append (t : String) (beat : Beat) :
    (match beat.dialogue with
     | some d => if d ≠ "" then t ++ " INCLUDE SPEECH BUBBLE: \"" ++ d ++ "\"" else t
     | none => t) = t ++ diaSuffix beat := by
  unfold diaSuffix
  rcases beat.dialogue with _ | d
  · exact (str_append_empty t).symm
  · by_cases hd : d = ""
    · simp only []
      rw [if_neg (by simp [hd]), if_neg (by simp [hd])]
      exact (str_append_empty t).symm
    · simp only []
      rw [if_pos hd, if_pos hd]
      simp [String.append_assoc]

/-- Counterexample to C8 as stated: with scene "They fight." the level-1
story prompt does NOT contain the original scene text — the violent-word
substitution already runs at level 1 (source line 592) — and contains
"confrontation" instead. -/
theorem buildPrompt_level1_counterexample :
    strIncl (buildPrompt
        { hero := none, friend := none, refStrength := 2, genre := "Noir",
          langName := "English", issueNumber := 1, isFinale := false }
        FaceType.story ⟨none, none, "They fight.", "hero", []⟩ 1)
      "They fight." = false ∧
    strIncl (buildPrompt
        { hero := none, friend := none, refStrength := 2, genre := "Noir",
          langName := "English", issueNumber := 1, isFinale := false }
        FaceType.story ⟨none, none, "They fight.", "hero", []⟩ 1)
      "confrontation" = true ∧
    ¬ ∃ pre post, buildPrompt
        { hero := none, friend := none, refStrength := 2, genre := "Noir",
          langName := "English", issueNumber := 1, isFinale := false }
        FaceType.story ⟨none, none, "They fight.", "hero", []⟩ 1 =
        pre ++ "They fight." ++ post := by
  refine ⟨by decide, by decide, ?_⟩
  rintro ⟨pre, post, hsplit⟩
  have h := strIncl_of_split _ pre "They fight." post hsplit
  exact absurd h (by decide)

/-- C8 (amended): for story pages, the level-0 prompt embeds the beat's
original scene text unchanged; the level-1 prompt gains the
fictional/no-photorealism qualifier AND embeds the violent-vocabulary
substitution of the scene (not the original); the level-2 prompt does the
same — for story pages levels 1 and 2 build the identical prompt text — and
the level-3 prompt embeds the original scene text again. -/
theorem buildPrompt_scene_treatment (cfg : GenCfg) (beat : Beat)
    (hs : beat.scene ≠ "") :
    (∃ pre post, buildPrompt cfg FaceType.story beat 0 =
      pre ++ beat.scene ++ post) ∧
    (∃ pre post, buildPrompt cfg FaceType.story beat 1 =
      pre ++ safeModeText ++ post) ∧
    (∃ pre post, buildPrompt cfg FaceType.story beat 1 =
      pre ++ replaceViolent beat.scene ++ post) ∧
    (∃ pre post, buildPrompt cfg FaceType.story beat 2 =
      pre ++ replaceViolent beat.scene ++ post) ∧
    (∃ pre post, buildPrompt cfg FaceType.story beat 3 =
      pre ++ beat.scene ++ post) ∧
    buildPrompt cfg FaceType.story beat 1 = buildPrompt cfg FaceType.story beat 2 := by
  refine ⟨?_, ?_, ?_, ?_, ?_, ?_⟩
  · refine ⟨"STYLE: " ++ (if cfg.genre = "Custom" then "Modern American" else cfg.genre) ++
      " comic book art. Fictional Character Art. " ++ "TYPE: Vertical comic panel. " ++
      "SCENE: ",
      ". " ++ "INSTRUCTIONS: Create a fictional comic book illustration. Artistic interpretation. " ++
      capSuffix beat ++ diaSuffix beat, ?_⟩
    simp only [buildPrompt, safeModeText, if_true, if_false]
    rw [if_neg hs]
    rw [if_neg (show ¬((0 : Nat) = 2) by decide), if_neg (show ¬((0 : Nat) > 0) by decide),
      if_neg (show ¬((0 : Nat) = 1) by decide)]
    rw [dia_append, cap_append]
    apply String.ext
    simp only [String.data_append, List.append_assoc]
  · refine ⟨"STYLE: " ++ (if cfg.genre = "Custom" then "Modern American" else cfg.genre) ++
      " comic book art. Fictional Character Art. ",
      "TYPE: Vertical comic panel. " ++ "SCENE: " ++ replaceViolent beat.scene ++ ". " ++
      "INSTRUCTIONS: Create a fictional comic book illustration. Artistic interpretation. " ++
      capSuffix beat ++ diaSuffix beat, ?_⟩
    simp only [buildPrompt, safeModeText, if_true, if_false]
    rw [if_neg hs]
    rw [if_neg (show ¬((1 : Nat) = 2) by decide), if_pos (show (1 : Nat) > 0 by decide)]
    rw [dia_append, cap_append]
    apply String.ext
    simp only [String.data_append, List.append_assoc]
  · refine ⟨"STYLE: " ++ (if cfg.genre = "Custom" then "Modern American" else cfg.genre) ++
      " comic book art. Fictional Character Art. " ++ safeModeText ++
      "TYPE: Vertical comic panel. " ++ "SCENE: ",
      ". " ++ "INSTRUCTIONS: Create a fictional comic book illustration. Artistic interpretation. " ++
      capSuffix beat ++ diaSuffix beat, ?_⟩
    simp only [buildPrompt, safeModeText, if_true, if_false]
    rw [if_neg hs]
    rw [if_neg (show ¬((1 : Nat) = 2) by decide), if_pos (show (1 : Nat) > 0 by decide)]
    rw [dia_append, cap_append]
    apply String.ext
    simp only [String.data_append, List.append_assoc]
  · refine ⟨"STYLE: " ++ (if cfg.genre = "Custom" then "Modern American" else cfg.genre) ++
      " comic book art. Fictional Character Art. " ++ safeModeText ++
      "TYPE: Vertical comic panel. " ++ "SCENE: ",
      ". " ++ "INSTRUCTIONS: Create a fictional comic book illustration. Artistic interpretation. " ++
      capSuffix beat ++ diaSuffix beat, ?_⟩
    simp only [buildPrompt, safeModeText, if_true, if_false]
    rw [if_neg hs]
    rw [if_pos (show (2 : Nat) > 0 by decide)]
    rw [dia_append, cap_append]
    apply String.ext
    simp only [String.data_append, List.append_assoc]
  · refine ⟨"STYLE: " ++ (if cfg.genre = "Custom" then "Modern American" else cfg.genre) ++
      " comic book art. Fictional Character Art. " ++ safeModeText ++
      "TYPE: Vertical comic panel. " ++ "SCENE: ",
      ". " ++ "INSTRUCTIONS: Create a fictional comic book illustration. Artistic interpretation. " ++
      capSuffix beat ++ diaSuffix beat, ?_⟩
    simp only [buildPrompt, safeModeText, if_true, if_false]
    rw [if_neg hs]
    rw [if_neg (show ¬((3 : Nat) = 2) by decide), if_pos (show (3 : Nat) > 0 by decide),
      if_neg (show ¬((3 : Nat) = 1) by decide)]
    rw [dia_append, cap_append]
    apply String.ext
    simp only [String.data_append, List.append_assoc]
  · rfl

/-- Witness for C8's amended theorem, at scene "They fight.": levels 1 and 2
build the same prompt, and the level-0 prompt embeds the original scene. -/
theorem buildPrompt_scene_treatment_witness :
    buildPrompt
        { hero := none, friend := none, refStrength := 2, genre := "Noir",
          langName := "English", issueNumber := 1, isFinale := false }
        FaceType.story ⟨none, none, "They fight.", "hero", []⟩ 1 =
      buildPrompt
        { hero := none, friend := none, refStrength := 2, genre := "Noir",
          langName := "English", issueNumber := 1, isFinale := false }
        FaceType.story ⟨none, none, "They fight.", "hero", []⟩ 2 ∧
    (∃ pre post, buildPrompt
        { hero := none, friend := none, refStrength := 2, genre := "Noir",
          langName := "English", issueNumber := 1, isFinale := false }
        FaceType.story ⟨none, none, "They fight.", "hero", []⟩ 0 =
        pre ++ "They fight." ++ post) := by
  obtain ⟨h0, _, _, _, _, h12⟩ := buildPrompt_scene_treatment
    { hero := none, friend := none, refStrength := 2, genre := "Noir",
      langName := "English", issueNumber := 1, isFinale := false }
    ⟨none, none, "They fight.", "hero", []⟩ (by decide)
  exact ⟨h12, h0⟩

end InfHeroes
